import Mathlib

/-!
Verification of the chat-router webhook pipeline (`backend/chat-router/src`).

The Python sources are shallowly embedded: JSON-like dynamic values become
the inductive `PyVal`, Python exceptions become `Except String`, wall-clock
reads (`time.time()`, `datetime.utcnow()`) become explicit parameters, and
the HMAC primitives become function parameters (the handlers only ever feed
them a key and a data string, which is what the claims are about).  Machine
arithmetic is exact (`Int`/`Nat`): every quantity involved fits well inside
64-bit / double ranges in the modelled paths.

Sources embedded here:
  - `normalizer.py` (module-level normalizers, `_parse_timestamp_to_ms`)
  - `normalizers/custom_normalizer.py`, `normalizers/line_normalizer.py`
  - `handlers/base_handler.py`, `handlers/slack_handler.py`,
    `handlers/line_handler.py`, `handlers/custom_handler.py`,
    `handlers/teams_handler.py`
  - `webhook_handler.py` (module-level per-platform webhook paths)
  - `services/model_selector_service.py`
  - `storage.py` (`save_message` item construction, `get_recent_messages`)
  - `common/responses.py`
-/

/-- A Python/JSON dynamic value as it appears in webhook payloads:
`None`, `bool`, `int`, `str`, `list`, `dict` (association list in insertion
order, keys unique).  Floats do not occur in the modelled payload paths. -/
inductive PyVal where
  | none
  | bool (b : Bool)
  | int (n : Int)
  | str (s : String)
  | list (xs : List PyVal)
  | dict (kvs : List (String × PyVal))

/-- Python truthiness (`bool(x)`) for the embedded values. -/
def pyTruthy : PyVal → Bool
  | .none => false
  | .bool b => b
  | .int n => n != 0
  | .str s => s != ""
  | .list xs => !xs.isEmpty
  | .dict kvs => !kvs.isEmpty

/-- First-match association lookup (Python dict keys are unique). -/
def pyLookup : List (String × PyVal) → String → Option PyVal
  | [], _ => Option.none
  | (k, v) :: rest, key => if k == key then Option.some v else pyLookup rest key

/-- `x.get(key, default)`: raises `AttributeError` when `x` is not a dict. -/
def pyGetD (v : PyVal) (key : String) (dflt : PyVal) : Except String PyVal :=
  match v with
  | .dict kvs =>
    match pyLookup kvs key with
    | Option.some w => .ok w
    | Option.none => .ok dflt
  | _ => .error "AttributeError"

/-- `len(x)`: defined for `str`, `list`, `dict`; raises `TypeError` otherwise. -/
def pyLen : PyVal → Except String Int
  | .str s => .ok s.data.length
  | .list xs => .ok xs.length
  | .dict kvs => .ok kvs.length
  | _ => .error "TypeError"

/-- `x[i]` for a nonnegative index: list element, or 1-character string of a
string; raises `IndexError` / `TypeError` like Python. -/
def pyIndex (v : PyVal) (i : Nat) : Except String PyVal :=
  match v with
  | .list xs =>
    match xs.get? i with
    | Option.some x => .ok x
    | Option.none => .error "IndexError"
  | .str s =>
    match s.data.get? i with
    | Option.some c => .ok (.str (String.mk [c]))
    | Option.none => .error "IndexError"
  | _ => .error "TypeError"

/-- Python `a or b` on values: `a` if truthy, else `b`. -/
def pyOr (a b : PyVal) : PyVal := if pyTruthy a then a else b

/-- Python `v == s` for a string literal `s`: equal strings, `False` for any
non-string value (no implicit conversions between `str` and other types). -/
def pyEqStr (v : PyVal) (s : String) : Bool :=
  match v with
  | .str t => t == s
  | _ => false

/-- ASCII lower-casing of one character (`str.lower` on the characters that
occur in the modelled keyword tables and messages). -/
def lowerChar (c : Char) : Char :=
  if 65 ≤ c.toNat ∧ c.toNat ≤ 90 then Char.ofNat (c.toNat + 32) else c

/-- `s.lower()`. -/
def pyLower (s : String) : String := String.mk (s.data.map lowerChar)

/-- Upper-casing of one ASCII character (used by `str.capitalize`). -/
def upperChar (c : Char) : Char :=
  if 97 ≤ c.toNat ∧ c.toNat ≤ 122 then Char.ofNat (c.toNat - 32) else c

/-- `s.capitalize()`: first character upper-cased, the rest lower-cased. -/
def pyCapitalize (s : String) : String :=
  match s.data with
  | [] => ""
  | c :: rest => String.mk (upperChar c :: rest.map lowerChar)

/-- The whitespace characters recognised by `str.split()` / `str.strip()`
(ASCII subset, which is what webhook text contains). -/
def pyIsSpace (c : Char) : Bool :=
  c == ' ' || c == '\t' || c == '\n' || c == '\x0d' ||
  c == Char.ofNat 11 || c == Char.ofNat 12

/-- `s.strip()` on the character list. -/
def stripChars (l : List Char) : List Char :=
  ((l.dropWhile pyIsSpace).reverse.dropWhile pyIsSpace).reverse

/-- `s.strip()`. -/
def pyStrip (s : String) : String := String.mk (stripChars s.data)

/-- Python `needle in hay` on character lists (substring check; the empty
needle is contained in everything, as in Python). -/
def containsChars (needle : List Char) : List Char → Bool
  | [] => needle.isEmpty
  | c :: t => needle.isPrefixOf (c :: t) || containsChars needle t

/-- Python `needle in hay` for strings. -/
def pyContains (hay needle : String) : Bool := containsChars needle.data hay.data

/-- `s.startswith(p)`. -/
def pyStartsWith (s p : String) : Bool := p.data.isPrefixOf s.data

/-- `s.split(sep)` for a single-character separator: keeps empty pieces,
exactly like Python's `str.split(".")`. -/
def splitOnChar (sep : Char) : List Char → List (List Char)
  | [] => [[]]
  | c :: t =>
    let rest := splitOnChar sep t
    if c == sep then [] :: rest
    else
      match rest with
      | [] => [[c]]
      | w :: ws => (c :: w) :: ws

/-- `s.split(".")` as strings. -/
def pySplitDot (s : String) : List String :=
  (splitOnChar '.' s.data).map String.mk

/-- Splitting a character list at every whitespace character, keeping empty
pieces (the pieces are the maximal whitespace-free runs together with the
empties produced by adjacent separators). -/
def splitWsAux : List Char → List (List Char)
  | [] => [[]]
  | c :: t =>
    let rest := splitWsAux t
    if pyIsSpace c then [] :: rest
    else
      match rest with
      | [] => [[c]]
      | w :: ws => (c :: w) :: ws

/-- `s.split()` with no argument: split on whitespace runs, dropping empty
pieces (Python semantics). -/
def pySplitWs (s : String) : List String :=
  ((splitWsAux s.data).map String.mk).filter (fun w => w != "")

/-- One step list of `str.replace`: scans left to right, replacing each
non-overlapping occurrence of `old` (nonempty in all call sites) by `new`.
`fuel` bounds the scan by the input length, making the recursion structural. -/
def replaceFuel (old new : List Char) : Nat → List Char → List Char
  | 0, l => l
  | _ + 1, [] => []
  | fuel + 1, c :: t =>
    if old.isPrefixOf (c :: t) ∧ ¬old.isEmpty then
      new ++ replaceFuel old new fuel (List.drop old.length (c :: t))
    else
      c :: replaceFuel old new fuel t

/-- `s.replace(old, new)` (all occurrences, left to right, non-overlapping). -/
def pyReplace (s old new : String) : String :=
  String.mk (replaceFuel old.data new.data s.data.length s.data)

/-- Lowercase 4-hex-digit rendering used by `json.dumps` `\uXXXX` escapes. -/
def hexDigit (n : Nat) : Char :=
  if n < 10 then Char.ofNat (48 + n) else Char.ofNat (87 + n)

/-- Four lowercase hex digits of `n % 0x10000`. -/
def hex4 (n : Nat) : List Char :=
  [hexDigit (n / 4096 % 16), hexDigit (n / 256 % 16),
   hexDigit (n / 16 % 16), hexDigit (n % 16)]

/-- `json.dumps` escaping of one character with `ensure_ascii=True`
(the default used by the handlers). -/
def jsonEscapeChar (c : Char) : List Char :=
  if c == '"' then ['\\', '"']
  else if c == '\\' then ['\\', '\\']
  else if c == '\n' then ['\\', 'n']
  else if c == '\t' then ['\\', 't']
  else if c == '\x0d' then ['\\', 'r']
  else if c.toNat == 8 then ['\\', 'b']
  else if c.toNat == 12 then ['\\', 'f']
  else if c.toNat < 32 then '\\' :: 'u' :: hex4 c.toNat
  else if c.toNat ≤ 126 then [c]
  else if c.toNat ≤ 65535 then '\\' :: 'u' :: hex4 c.toNat
  else
    let v := c.toNat - 65536
    ('\\' :: 'u' :: hex4 (55296 + v / 1024)) ++ ('\\' :: 'u' :: hex4 (56320 + v % 1024))

/-- `json.dumps` rendering of a string literal. -/
def jsonEscapeString (s : String) : String :=
  String.mk ('"' :: s.data.foldr (fun c acc => jsonEscapeChar c ++ acc) ['"'])

mutual
/-- `json.dumps(v)` with the default separators `", "` and `": "` and
`ensure_ascii=True`, exactly as the handlers call it (no keyword arguments
except `ensure_ascii=False` in the response helpers, which only changes the
escaping of non-ASCII characters — the response-body claims below never
involve non-ASCII payload text, so one renderer serves both call shapes). -/
def pyJsonDumps : PyVal → String
  | .none => "null"
  | .bool b => cond b "true" "false"
  | .int n => toString n
  | .str s => jsonEscapeString s
  | .list xs => "[" ++ pyJsonDumpsList xs ++ "]"
  | .dict kvs => "\x7b" ++ pyJsonDumpsDict kvs ++ "\x7d"

def pyJsonDumpsList : List PyVal → String
  | [] => ""
  | [x] => pyJsonDumps x
  | x :: xs => pyJsonDumps x ++ ", " ++ pyJsonDumpsList xs

def pyJsonDumpsDict : List (String × PyVal) → String
  | [] => ""
  | [(k, v)] => jsonEscapeString k ++ ": " ++ pyJsonDumps v
  | (k, v) :: kvs => jsonEscapeString k ++ ": " ++ pyJsonDumps v ++ ", " ++ pyJsonDumpsDict kvs
end

mutual
/-- `repr` of the embedded values, used by `str()` on containers inside
f-strings.  Strings are rendered single-quoted; the modelled code never
formats a container whose strings need escaping, so escaping is omitted. -/
def pyRepr : PyVal → String
  | .none => "None"
  | .bool b => cond b "True" "False"
  | .int n => toString n
  | .str s => String.mk ('\'' :: s.data ++ ['\''])
  | .list xs => "[" ++ pyReprList xs ++ "]"
  | .dict kvs => "\x7b" ++ pyReprDict kvs ++ "\x7d"

def pyReprList : List PyVal → String
  | [] => ""
  | [x] => pyRepr x
  | x :: xs => pyRepr x ++ ", " ++ pyReprList xs

def pyReprDict : List (String × PyVal) → String
  | [] => ""
  | [(k, v)] => "'" ++ k ++ "': " ++ pyRepr v
  | (k, v) :: kvs => "'" ++ k ++ "': " ++ pyRepr v ++ ", " ++ pyReprDict kvs
end

/-- `str(v)` as used inside f-strings: identity on strings, `None`/`True`/
`False`/decimal for the other scalars, `repr` for containers. -/
def pyStr : PyVal → String
  | .none => "None"
  | .bool b => cond b "True" "False"
  | .int n => toString n
  | .str s => s
  | .list xs => pyRepr (.list xs)
  | .dict kvs => pyRepr (.dict kvs)

/-- `int(s)` on a decimal string: optional surrounding whitespace, optional
sign, at least one digit (digit-group underscores are not modelled; none of
the webhook payload paths produce them).  Errors model `ValueError`. -/
def pyIntOfString (s : String) : Except String Int :=
  let l := stripChars s.data
  let core : List Char → Option Nat := fun ds =>
    if ds.isEmpty ∨ ¬(ds.all Char.isDigit) then Option.none
    else Option.some (ds.foldl (fun acc c => acc * 10 + (c.toNat - 48)) 0)
  match l with
  | '-' :: ds =>
    match core ds with
    | Option.some n => .ok (-(n : Int))
    | Option.none => .error "ValueError"
  | '+' :: ds =>
    match core ds with
    | Option.some n => .ok (n : Int)
    | Option.none => .error "ValueError"
  | ds =>
    match core ds with
    | Option.some n => .ok (n : Int)
    | Option.none => .error "ValueError"

/-- `int(v)`: integers unchanged, booleans to 0/1, decimal strings parsed,
anything else raises (`TypeError`). -/
def pyToInt : PyVal → Except String Int
  | .int n => .ok n
  | .bool b => .ok (cond b 1 0)
  | .str s => pyIntOfString s
  | _ => .error "TypeError"

/-- An exactly represented decimal number `m * 10^e`, the value denoted by a
numeric string accepted by Python's `float()`.  The modelled paths only ever
convert such values with `int(...)` after an exact-in-double multiplication,
so exact decimal arithmetic coincides with the double arithmetic there. -/
structure PyDec where
  m : Int
  e : Int

/-- Digits of a nonempty all-digit character list. -/
def decDigits (ds : List Char) : Option Nat :=
  if ds.isEmpty ∨ ¬(ds.all Char.isDigit) then Option.none
  else Option.some (ds.foldl (fun acc c => acc * 10 + (c.toNat - 48)) 0)

/-- Mantissa of `float()`: `digits`, `digits.`, `digits.digits` or `.digits`
(at least one digit overall). -/
def parseMantissa (l : List Char) : Option PyDec :=
  match splitOnChar '.' l with
  | [ip] =>
    match decDigits ip with
    | Option.some n => Option.some ⟨(n : Int), 0⟩
    | Option.none => Option.none
  | [ip, fp] =>
    if (ip.isEmpty ∧ fp.isEmpty) ∨ ¬(ip.all Char.isDigit) ∨ ¬(fp.all Char.isDigit) then
      Option.none
    else
      Option.some ⟨((decDigits (ip ++ fp)).getD 0 : Nat), -(fp.length : Int)⟩
  | _ => Option.none

/-- Exponent suffix of `float()`: optional sign and a nonempty digit run. -/
def parseExponent (l : List Char) : Option Int :=
  match l with
  | '-' :: ds => (decDigits ds).map (fun n => -(n : Int))
  | '+' :: ds => (decDigits ds).map (fun n => (n : Int))
  | ds => (decDigits ds).map (fun n => (n : Int))

/-- `float(s)` on a decimal string: surrounding whitespace, optional sign,
mantissa, optional `e`-exponent.  (`inf`/`nan` are not modelled: on the one
code path that consumes this value, `int(...)` raises on them, and the
enclosing handler turns that into the same wall-clock fallback as a plain
parse failure.)  `none` models `ValueError`. -/
def pyFloatOfString (s : String) : Option PyDec :=
  let l := stripChars s.data
  let signed : List Char × Bool :=
    match l with
    | '-' :: t => (t, true)
    | '+' :: t => (t, false)
    | t => (t, false)
  let lowered := signed.1.map (fun c => if c == 'E' then 'e' else c)
  let mant? : Option PyDec :=
    match splitOnChar 'e' lowered with
    | [m] => parseMantissa m
    | [m, ex] =>
      match parseMantissa m, parseExponent ex with
      | Option.some d, Option.some e => Option.some ⟨d.m, d.e + e⟩
      | _, _ => Option.none
    | _ => Option.none
  mant?.map (fun d => if signed.2 then ⟨-d.m, d.e⟩ else d)

/-- `int(x)` on an exact decimal: truncation toward zero, Python semantics. -/
def truncDec (d : PyDec) : Int :=
  if 0 ≤ d.e then d.m * ((10 : Int) ^ d.e.toNat)
  else Int.tdiv d.m ((10 : Int) ^ (-d.e).toNat)

/-- Exact `x * 1000`. -/
def decMul1000 (d : PyDec) : PyDec := ⟨d.m, d.e + 3⟩

/-- Two decimal digits. -/
def d2 (a b : Char) : Option Nat :=
  if a.isDigit ∧ b.isDigit then Option.some ((a.toNat - 48) * 10 + (b.toNat - 48))
  else Option.none

/-- Days from 1970-01-01 to the civil date `y-m-d` (proleptic Gregorian,
`y ≥ 1` as enforced by the 4-digit ISO date), the standard days-from-civil
computation used to model `datetime.timestamp()`. -/
def daysFromCivil (y m d : Nat) : Int :=
  let y' : Nat := if m ≤ 2 then y - 1 else y
  let era : Nat := y' / 400
  let yoe : Nat := y' - era * 400
  let mp : Nat := if m > 2 then m - 3 else m + 9
  let doy : Nat := (153 * mp + 2) / 5 + (d - 1)
  let doe : Nat := yoe * 365 + yoe / 4 - yoe / 100 + doy
  (era : Int) * 146097 + (doe : Int) - 719468

/-- Whether `y` is a Gregorian leap year. -/
def isLeapYear (y : Nat) : Bool := y % 4 == 0 && (y % 100 != 0 || y % 400 == 0)

/-- Days in month `m` of year `y`. -/
def daysInMonth (y m : Nat) : Nat :=
  if m == 2 then (if isLeapYear y then 29 else 28)
  else if m == 4 ∨ m == 6 ∨ m == 9 ∨ m == 11 then 30
  else 31

/-- The `HH[:MM[:SS[.fff[fff]]]]` time grammar of pre-3.11
`datetime.fromisoformat` (mirrored for the UTC-offset part, whose accepted
lengths are checked by the caller).  Returns `(hour, minute, second, µs)`. -/
def parseTimePart (l : List Char) : Option (Nat × Nat × Nat × Nat) :=
  let check : Nat → Nat → Nat → Nat → Option (Nat × Nat × Nat × Nat) :=
    fun h m s f =>
      if h ≤ 23 ∧ m ≤ 59 ∧ s ≤ 59 then Option.some (h, m, s, f) else Option.none
  match l with
  | [h1, h2] =>
    match d2 h1 h2 with
    | Option.some h => check h 0 0 0
    | Option.none => Option.none
  | [h1, h2, ':', m1, m2] =>
    match d2 h1 h2, d2 m1 m2 with
    | Option.some h, Option.some m => check h m 0 0
    | _, _ => Option.none
  | [h1, h2, ':', m1, m2, ':', s1, s2] =>
    match d2 h1 h2, d2 m1 m2, d2 s1 s2 with
    | Option.some h, Option.some m, Option.some s => check h m s 0
    | _, _, _ => Option.none
  | h1 :: h2 :: ':' :: m1 :: m2 :: ':' :: s1 :: s2 :: '.' :: fs =>
    match d2 h1 h2, d2 m1 m2, d2 s1 s2, decDigits fs with
    | Option.some h, Option.some m, Option.some s, Option.some f =>
      if fs.length == 3 then check h m s (f * 1000)
      else if fs.length == 6 then check h m s f
      else Option.none
    | _, _, _, _ => Option.none
  | _ => Option.none

/-- Index of the first occurrence of `c`. -/
def indexOfChar (c : Char) : List Char → Option Nat
  | [] => Option.none
  | x :: t =>
    if x == c then Option.some 0
    else (indexOfChar c t).map (· + 1)

/-- The tz split of pre-3.11 `fromisoformat`: the offset starts at the first
`-` of the time string if any, else at the first `+` if any. -/
def splitTzPart (l : List Char) : List Char × Option (Bool × List Char) :=
  match indexOfChar '-' l with
  | Option.some i => (l.take i, Option.some (true, l.drop (i + 1)))
  | Option.none =>
    match indexOfChar '+' l with
    | Option.some i => (l.take i, Option.some (false, l.drop (i + 1)))
    | Option.none => (l, Option.none)

/-- `int(datetime.fromisoformat(s).timestamp() * 1000)` for the pre-3.11
grammar `YYYY-MM-DD[<sep>HH[:MM[:SS[.fff[fff]]]][±HH:MM[:SS]]]`.  A naive
datetime is interpreted in the runtime's timezone, which is UTC in the
deployed Lambda environment.  Arithmetic is exact; the epoch values reached
from webhook payloads are integral in milliseconds up to the sub-ms
truncation performed here, where double rounding in `timestamp()` rounds to
the same integer.  Errors model `ValueError`. -/
def isoToEpochMs (s : String) : Except String Int :=
  match s.data with
  | y1 :: y2 :: y3 :: y4 :: '-' :: mo1 :: mo2 :: '-' :: dd1 :: dd2 :: rest =>
    match decDigits [y1, y2, y3, y4], d2 mo1 mo2, d2 dd1 dd2 with
    | Option.some y, Option.some mo, Option.some dd =>
      if 1 ≤ y ∧ 1 ≤ mo ∧ mo ≤ 12 ∧ 1 ≤ dd ∧ dd ≤ daysInMonth y mo then
        let finish : Nat × Nat × Nat × Nat → Int → Except String Int :=
          fun (h, mi, se, micro) offsetSeconds =>
            let epochSeconds : Int :=
              daysFromCivil y mo dd * 86400 + (h : Int) * 3600 + (mi : Int) * 60 +
                (se : Int) - offsetSeconds
            .ok (Int.tdiv (epochSeconds * 1000000 + (micro : Int)) 1000)
        match rest with
        | [] => finish (0, 0, 0, 0) 0
        | _sep :: tpart =>
          match splitTzPart tpart with
          | (timestr, Option.none) =>
            match parseTimePart timestr with
            | Option.some t => finish t 0
            | Option.none => .error "ValueError"
          | (timestr, Option.some (neg, tzstr)) =>
            if tzstr.length == 5 ∨ tzstr.length == 8 then
              match parseTimePart timestr, parseTimePart tzstr with
              | Option.some t, Option.some (oh, om, os, _) =>
                let off : Int := (oh : Int) * 3600 + (om : Int) * 60 + (os : Int)
                finish t (if neg then -off else off)
              | _, _ => .error "ValueError"
            else .error "ValueError"
      else .error "ValueError"
    | _, _, _ => .error "ValueError"
  | _ => .error "ValueError"

/-- The body of `_parse_timestamp_to_ms` inside its `try`, for a truthy
input (`normalizer.py` lines 366-396 / `base_normalizer.py`): numeric values
use the 10-digit seconds/milliseconds heuristic on `str(int(x))`, strings
containing `T` or `Z` go through `fromisoformat` after replacing `Z` with
`+00:00`, other strings try `float()` with the same heuristic on the part
before the first `.`, and everything still unparsed yields the wall clock. -/
def parseTsBody (now : Int) (timestamp : PyVal) : Except String Int :=
  match timestamp with
  | .int n =>
    if (toString n).data.length ≤ 10 then .ok (n * 1000) else .ok n
  | .bool b =>
    -- `isinstance(True, int)` holds in Python; only `True` reaches here.
    let n : Int := cond b 1 0
    if (toString n).data.length ≤ 10 then .ok (n * 1000) else .ok n
  | .str s =>
    if pyContains s "T" ∨ pyContains s "Z" then
      isoToEpochMs (pyReplace s "Z" "+00:00")
    else
      match pyFloatOfString s with
      | Option.some d =>
        .ok (if (pySplitDot s).headI.data.length ≤ 10
             then truncDec (decMul1000 d) else truncDec d)
      | Option.none => .ok now  -- ValueError suppressed; falls through to now
  | _ => .ok now  -- non-numeric, non-string: "Unable to parse" branch

/-- `_parse_timestamp_to_ms(timestamp)` with the wall clock (`time.time()`
in ms) passed explicitly: falsy input or any caught error yields `now`. -/
def parse_timestamp_to_ms (now : Int) (timestamp : PyVal) : Int :=
  if ¬pyTruthy timestamp then now
  else
    match parseTsBody now timestamp with
    | .ok v => v
    | .error _ => now

/-- The Slack-specific `"seconds.microseconds"` timestamp parse of
`normalize_slack_message` (`normalizer.py` lines 106-112): split on `.`,
seconds part times 1000 plus the first three fractional digits, any
`ValueError`/`AttributeError`/`IndexError` yielding the wall clock. -/
def slackTsToMs (now : Int) (ts : PyVal) : Int :=
  let body : Except String Int :=
    match ts with
    | .str s =>
      let parts := pySplitDot s
      match pyIntOfString parts.headI with
      | .ok ip =>
        if parts.length > 1 then
          match pyIntOfString (String.mk (((parts.get? 1).getD "").data.take 3)) with
          | .ok fp => .ok (ip * 1000 + fp)
          | .error e => .error e
        else .ok (ip * 1000)
      | .error e => .error e
    | _ => .error "AttributeError"
  match body with
  | .ok v => v
  | .error _ => now

/-- The task-classification keyword dictionary of `ModelSelectorService`
(`model_selector_service.py` lines 22-49), in insertion order. -/
def taskKeywords : List (String × List String) :=
  [("technical",
    ["bug", "error", "エラー", "バグ", "exception", "issue", "problem",
     "debug", "デバッグ", "fix", "修正", "troubleshoot", "トラブル",
     "code", "コード", "function", "関数", "method", "メソッド",
     "api", "database", "sql", "query", "server", "サーバー",
     "deploy", "デプロイ", "config", "設定", "performance", "パフォーマンス"]),
   ("creative",
    ["create", "作成", "write", "書い", "generate", "生成", "design", "デザイン",
     "story", "物語", "article", "記事", "blog", "ブログ", "content", "コンテンツ",
     "creative", "創造", "imagine", "想像", "brainstorm", "アイデア",
     "novel", "小説", "poem", "詩", "script", "脚本", "marketing", "マーケティング"]),
   ("analysis",
    ["analyze", "分析", "compare", "比較", "evaluate", "評価", "review", "レビュー",
     "explain", "説明", "summarize", "要約", "research", "研究", "調査",
     "report", "レポート", "data", "データ", "statistics", "統計",
     "trend", "トレンド", "insight", "洞察", "conclusion", "結論",
     "recommendation", "推奨", "strategy", "戦略", "planning", "計画"]),
   ("general",
    ["hello", "こんにちは", "help", "ヘルプ", "question", "質問",
     "what", "how", "why", "when", "where", "who",
     "なに", "どう", "なぜ", "いつ", "どこ", "だれ",
     "please", "お願い", "thanks", "ありがとう", "sorry", "すみません"])]

/-- The complexity-indicator dictionary (`model_selector_service.py`
lines 52-66). -/
def complexityIndicators : List (String × List String) :=
  [("high",
    ["complex", "複雑", "detailed", "詳細", "comprehensive", "包括的",
     "thorough", "徹底的", "deep", "深い", "advanced", "高度",
     "multi-step", "多段階", "integration", "統合", "architecture", "アーキテクチャ"]),
   ("medium",
    ["moderate", "中程度", "standard", "標準", "typical", "一般的",
     "normal", "通常", "regular", "定期的", "basic", "基本的"]),
   ("low",
    ["simple", "シンプル", "easy", "簡単", "quick", "素早い",
     "brief", "簡潔", "basic", "基本", "straightforward", "単純"])]

/-- The per-task score loop of `_classify_task`: `+2` when the keyword is a
substring of the message (`keyword in message`), else `+1` when it is a
substring of some whitespace token (`keyword in word for word in
message.split()`). -/
def taskScore (message : String) (keywords : List String) : Nat :=
  keywords.foldl
    (fun score keyword =>
      if pyContains message keyword then score + 2
      else if (pySplitWs message).any (fun word => pyContains word keyword) then score + 1
      else score)
    0

/-- `max(scores, key=scores.get)` over an association list in insertion
order: the first key attaining the maximal value, as Python's `max` returns
the first maximal element. -/
def firstArgmax (first : String × Nat) (rest : List (String × Nat)) : String :=
  (rest.foldl (fun best cur => if cur.2 > best.2 then cur else best) first).1

/-- `ModelSelectorService._classify_task(message)` on the already-normalised
(lower-cased, stripped) message: keyword-overlap scores per task type, all
zero giving `general`, otherwise the first task type with the highest score
in dictionary order technical, creative, analysis, general. -/
def classify_task (message : String) : String :=
  let scores := taskKeywords.map (fun tk => (tk.1, taskScore message tk.2))
  if (scores.map (fun p => p.2)).foldl max 0 == 0 then "general"
  else
    match scores with
    | [] => "general"
    | first :: rest => firstArgmax first rest

/-- `select_model`'s message normalisation followed by `_classify_task`,
i.e. classification of raw text (`user_message.lower().strip()`). -/
def classifyText (text : String) : String :=
  classify_task (pyLower (pyStrip text))

/-- `ModelSelectorService._assess_complexity(message)`: length buckets plus
3/2/1-weighted indicator-keyword hits, thresholded at 4 and 2. -/
def assess_complexity (message : String) : String :=
  let lengthScore : Nat :=
    if message.data.length > 200 then 2
    else if message.data.length > 100 then 1
    else 0
  let hits : String → Nat := fun level =>
    (((complexityIndicators.filter (fun p => p.1 == level)).map
        (fun p => (p.2.filter (fun keyword => pyContains message keyword)).length)).foldl
      (· + ·) 0)
  let total := hits "high" * 3 + hits "medium" * 2 + hits "low" * 1 + lengthScore
  if total ≥ 4 then "high"
  else if total ≥ 2 then "medium"
  else "low"

/-- Association lookup in a plain string map (`task_model_mapping`). -/
def strLookup : List (String × String) → String → Option String
  | [], _ => Option.none
  | (k, v) :: rest, key => if k == key then Option.some v else strLookup rest key

/-- The `task_model_mapping[task_type] if present else default_model` step of
`_determine_model`. -/
def baseModelOf (taskModelMapping : List (String × String))
    (taskType defaultModel : String) : String :=
  match strLookup taskModelMapping taskType with
  | Option.some b => b
  | Option.none => defaultModel

/-- `ModelSelectorService._determine_model(task_type, complexity,
task_model_mapping, default_model)` (`model_selector_service.py` lines
183-219): base model from the mapping or the default; on high complexity a
case-insensitive `haiku` detection followed by a case-sensitive
`replace("haiku", "sonnet")`; on low complexity and a general task the
symmetric `sonnet` → `haiku` replacement; otherwise unchanged. -/
def determine_model (taskType complexity : String)
    (taskModelMapping : List (String × String)) (defaultModel : String) : String :=
  let base := baseModelOf taskModelMapping taskType defaultModel
  if complexity == "high" then
    if pyContains (pyLower base) "haiku" then pyReplace base "haiku" "sonnet" else base
  else if complexity == "low" then
    if pyContains (pyLower base) "sonnet" ∧ taskType == "general" then
      pyReplace base "sonnet" "haiku"
    else base
  else base

/-- `UnifiedMessage` (`common/message.py` / `normalizer.py`): the canonical
message.  `platform`, `room_key` and `role` are always `str` in the sources;
the remaining fields are dynamically typed values taken from the payload. -/
structure UnifiedMessage where
  platform : String
  room_key : String
  sender_id : PyVal
  ts : PyVal
  role : String := "user"
  text : PyVal := PyVal.none
  content_type : PyVal := PyVal.str "text"
  s3_uri : PyVal := PyVal.none

/-- Default of `TTL_SECONDS = int(os.environ.get('TTL_SECONDS', 86400))`. -/
def TTL_SECONDS_DEFAULT : Int := 86400

/-- The DynamoDB item constructed by `storage.save_message` (`storage.py`
lines 50-67), with the wall clock `int(time.time())` passed explicitly:
`PK`/`SK`/`role`/`contentType`/`ttl` always, `text` and `s3Uri` only when
truthy. -/
def save_message_item (nowSeconds ttlSeconds : Int) (message : UnifiedMessage) :
    List (String × PyVal) :=
  [("PK", PyVal.str message.room_key),
   ("SK", message.ts),
   ("role", PyVal.str message.role),
   ("contentType", message.content_type),
   ("ttl", PyVal.int (nowSeconds + ttlSeconds))] ++
  (if pyTruthy message.text then [("text", message.text)] else []) ++
  (if pyTruthy message.s3_uri then [("s3Uri", message.s3_uri)] else [])

/-- One stored chat-history row as returned by a DynamoDB query: the
partition key `PK` (room key), the numeric sort key `SK` (timestamp in ms)
and the remaining attributes. -/
structure StoredItem where
  PK : String
  SK : Int
  attrs : List (String × PyVal)
/-- Ascending sort-key order on stored items (`items.sort(key=lambda x:
x['SK'])`). -/
def skAscLe (a b : StoredItem) : Prop := a.SK ≤ b.SK

/-- Descending sort-key order (`ScanIndexForward=False`). -/
def skDescLe (a b : StoredItem) : Prop := b.SK ≤ a.SK

instance : DecidableRel skAscLe := fun a b => Int.decLe a.SK b.SK

instance : DecidableRel skDescLe := fun a b => Int.decLe b.SK a.SK

instance : IsTotal StoredItem skAscLe := ⟨fun a b => Int.le_total a.SK b.SK⟩

instance : IsTotal StoredItem skDescLe := ⟨fun a b => Int.le_total b.SK a.SK⟩

instance : IsTrans StoredItem skAscLe := ⟨fun _ _ _ h h' => le_trans h h'⟩

instance : IsTrans StoredItem skDescLe := ⟨fun _ _ _ h h' => le_trans h' h⟩

/-- External DynamoDB `query` semantics for
`table.query(KeyConditionExpression='PK = :pk', ScanIndexForward=False,
Limit=limit)` (spec §6 collaborator contract: `query(roomKey, limit,
order)`): the items of the partition, in descending sort-key order, at most
`limit` of them. -/
def dynamoQueryDesc (store : List StoredItem) (pk : String) (limit : Nat) :
    List StoredItem :=
  (List.insertionSort skDescLe (store.filter (fun it => it.PK == pk))).take
    limit

/-- `storage.get_recent_messages(room_key, limit)` (`storage.py` lines
132-164): descending-query window of size `limit`, then
`items.sort(key=lambda x: x['SK'])`, i.e. ascending by timestamp. -/
def get_recent_messages (store : List StoredItem) (roomKey : String)
    (limit : Nat) : List StoredItem :=
  List.insertionSort skAscLe (dynamoQueryDesc store roomKey limit)

/-- A Lambda HTTP event as the handlers consume it: the (already lower-cased
by API Gateway) header map and the raw body string.  `event.get("headers",
{}).get(name, "")` and `event.get("body", "")` never raise on this shape. -/
structure LambdaEvent where
  headers : List (String × String)
  body : String

/-- `event.get("headers", {}).get(name, "")`. -/
def headerGet (event : LambdaEvent) (name : String) : String :=
  match event.headers.find? (fun kv => kv.1 == name) with
  | Option.some kv => kv.2
  | Option.none => ""

/-- `hmac.compare_digest` on two strings: functionally plain equality (the
constant-time execution is a timing property, not a value property). -/
def compareDigest (a b : String) : Bool := a == b

/-- `SlackWebhookHandler._verify_signature` (`slack_handler.py` lines
35-59), with the HMAC-SHA256-hex primitive `macHex` passed as a parameter:
no configured secret (`None` or empty) bypasses verification; otherwise the
`v0=`-prefixed MAC over `"v0:" + timestamp + ":" + raw body` is compared
with the signature header, empty timestamp or signature failing first. -/
def slack_verify_signature (macHex : String → String → String)
    (signingSecret : Option String) (_body : PyVal) (event : LambdaEvent) : Bool :=
  match signingSecret with
  | Option.none => true
  | Option.some secret =>
    if secret == "" then true
    else
      let timestamp := headerGet event "x-slack-request-timestamp"
      let signature := headerGet event "x-slack-signature"
      let rawBody := event.body
      if timestamp == "" ∨ signature == "" then false
      else
        let baseString := "v0:" ++ timestamp ++ ":" ++ rawBody
        let mySignature := "v0=" ++ macHex secret baseString
        compareDigest mySignature signature

/-- `LineWebhookHandler._verify_signature` (`line_handler.py` lines 33-54),
with the HMAC-SHA256-base64 primitive `macB64` passed as a parameter: the
MAC is computed over `json.dumps(body)` — the re-serialised parsed body,
not the raw request body. -/
def line_verify_signature (macB64 : String → String → String)
    (signingSecret : Option String) (body : PyVal) (event : LambdaEvent) : Bool :=
  match signingSecret with
  | Option.none => true
  | Option.some secret =>
    if secret == "" then true
    else
      let signature := headerGet event "x-line-signature"
      if signature == "" then false
      else compareDigest (macB64 secret (pyJsonDumps body)) signature

/-- `CustomWebhookHandler._verify_signature` (`custom_handler.py` lines
90-111): like the LINE verifier, the MAC is computed over
`json.dumps(body)`, hex-encoded. -/
def custom_verify_signature (macHex : String → String → String)
    (signingSecret : Option String) (body : PyVal) (event : LambdaEvent) : Bool :=
  match signingSecret with
  | Option.none => true
  | Option.some secret =>
    if secret == "" then true
    else
      let signature := headerGet event "x-custom-signature"
      if signature == "" then false
      else compareDigest (macHex secret (pyJsonDumps body)) signature

/-- `TeamsWebhookHandler._verify_signature` (`teams_handler.py` lines
31-51): bearer-prefix presence check only. -/
def teams_verify_signature (signingSecret : Option String) (_body : PyVal)
    (event : LambdaEvent) : Bool :=
  match signingSecret with
  | Option.none => true
  | Option.some secret =>
    if secret == "" then true
    else
      let authHeader := headerGet event "authorization"
      if authHeader == "" then false
      else pyStartsWith authHeader "Bearer "

/-- Module-level `_verify_slack_signature(body, timestamp, signature)`
(`webhook_handler.py` lines 312-336): unlike the class-based verifier, an
unconfigured secret makes this function itself return `False`; its caller
bypasses the call instead. -/
def verify_slack_signature (macHex : String → String → String)
    (slackSigningSecret body timestamp signature : String) : Bool :=
  if slackSigningSecret == "" ∨ timestamp == "" ∨ signature == "" then false
  else
    let baseString := "v0:" ++ timestamp ++ ":" ++ body
    compareDigest ("v0=" ++ macHex slackSigningSecret baseString) signature

/-- Module-level `_verify_line_signature(body, signature)`
(`webhook_handler.py` lines 339-359). -/
def verify_line_signature (macB64 : String → String → String)
    (lineChannelSecret body signature : String) : Bool :=
  if lineChannelSecret == "" ∨ signature == "" then false
  else compareDigest (macB64 lineChannelSecret body) signature

/-- Module-level `_verify_custom_signature(body, signature)`
(`webhook_handler.py` lines 380-399). -/
def verify_custom_signature (macHex : String → String → String)
    (customUiSecret body signature : String) : Bool :=
  if customUiSecret == "" ∨ signature == "" then false
  else compareDigest (macHex customUiSecret body) signature

/-- Module-level `_verify_teams_auth(auth_header)` (`webhook_handler.py`
lines 362-377). -/
def verify_teams_auth (teamsSecret authHeader : String) : Bool :=
  if teamsSecret == "" ∨ authHeader == "" then false
  else pyStartsWith authHeader "Bearer "

/-- The Python default `limit=6` of `get_recent_messages`. -/
def GET_RECENT_DEFAULT_LIMIT : Nat := 6

/-- An API-Gateway Lambda response as built by `common/responses.py` and
`webhook_handler.py`: status code, the fixed webhook headers, and the
`json.dumps`-rendered body. -/
structure LambdaResponse where
  statusCode : Int
  headers : List (String × String)
  body : String
deriving DecidableEq

/-- `WEBHOOK_HEADERS` (`common/responses.py` lines 11-14). -/
def WEBHOOK_HEADERS : List (String × String) :=
  [("Content-Type", "application/json"), ("Access-Control-Allow-Origin", "*")]

/-- `create_success_response(data, status_code)` — identical in
`common/responses.py` and (as `_create_success_response`)
`webhook_handler.py`. -/
def create_success_response (data : PyVal) (statusCode : Int) : LambdaResponse :=
  { statusCode := statusCode, headers := WEBHOOK_HEADERS, body := pyJsonDumps data }

/-- `create_error_response(status_code, error, message)` — identical in
`common/responses.py` and (as `_create_error_response`)
`webhook_handler.py`; `datetime.utcnow().isoformat()` is the explicit
`nowIso` parameter. -/
def create_error_response (statusCode : Int) (error message nowIso : String) :
    LambdaResponse :=
  { statusCode := statusCode,
    headers := WEBHOOK_HEADERS,
    body := pyJsonDumps (.dict
      [("error", .str error), ("message", .str message), ("timestamp", .str nowIso)]) }

/-- `create_platform_success_response(platform, room_key, message_ts)`
(`common/responses.py` lines 59-79). -/
def create_platform_success_response (platform roomKey : String) (messageTs : PyVal)
    (nowIso : String) : PyVal :=
  .dict
    [("status", .str "success"),
     ("platform", .str platform),
     ("message", .str (pyCapitalize platform ++ " webhook processed successfully")),
     ("timestamp", .str nowIso),
     ("roomKey", .str roomKey),
     ("messageTs", messageTs)]

/-- `create_ignored_response(platform, reason)` (`common/responses.py`
lines 82-97). -/
def create_ignored_response (platform reason nowIso : String) : PyVal :=
  .dict
    [("status", .str "ignored"),
     ("platform", .str platform),
     ("message", .str reason),
     ("timestamp", .str nowIso)]

/-- `_determine_slack_file_type(file)` (`normalizer.py` lines 312-330):
four-way bucket from the `mimetype` prefix; a non-string mimetype raises
(`startswith` on a non-string). -/
def determineSlackFileType (file : PyVal) : Except String PyVal := do
  let mime ← pyGetD file "mimetype" (.str "")
  match mime with
  | .str m =>
    pure (.str
      (if pyStartsWith m "image/" then "image"
       else if pyStartsWith m "video/" then "video"
       else if pyStartsWith m "audio/" then "audio"
       else "file"))
  | _ => .error "AttributeError"

/-- `_determine_teams_attachment_type(attachment)` (`normalizer.py` lines
333-351): four-way bucket by substring of the declared `contentType`. -/
def determineTeamsAttachmentType (attachment : PyVal) : Except String PyVal := do
  let ct ← pyGetD attachment "contentType" (.str "")
  match ct with
  | .str c =>
    pure (.str
      (if pyContains c "image" then "image"
       else if pyContains c "video" then "video"
       else if pyContains c "audio" then "audio"
       else "file"))
  | _ => .error "TypeError"

/-- The `try`-body of `normalize_slack_message(payload)` (`normalizer.py`
lines 87-139); `Except.error` is any exception reaching the enclosing
`except`. -/
def normalize_slack_message_body (now : Int) (payload : PyVal) :
    Except String (Option UnifiedMessage) := do
  let ty ← pyGetD payload "type" PyVal.none
  if pyEqStr ty "url_verification" then return Option.none
  let event ← pyGetD payload "event" (.dict [])
  if ¬ pyTruthy event then return Option.none
  let ety ← pyGetD event "type" PyVal.none
  if ¬ pyEqStr ety "message" then return Option.none
  let teamId ← pyGetD payload "team_id" PyVal.none
  let channel ← pyGetD event "channel" PyVal.none
  let user ← pyGetD event "user" PyVal.none
  let text ← pyGetD event "text" PyVal.none
  let ts ← pyGetD event "ts" PyVal.none
  let tsMs := slackTsToMs now ts
  let _threadTs ← pyGetD event "thread_ts" ts
  let roomKey := "slack:" ++ pyStr teamId ++ ":" ++ pyStr channel
  let files ← pyGetD event "files" (.list [])
  let contentType ←
    if pyTruthy files then do
      let file ← pyIndex files 0
      determineSlackFileType file
    else pure (PyVal.str "text")
  return Option.some
    { platform := "slack", room_key := roomKey, sender_id := user,
      ts := .int tsMs, role := "user", text := text,
      content_type := contentType, s3_uri := PyVal.none }

/-- `normalize_slack_message(payload)`: the body with its catch-all
`except` returning `None`. -/
def normalize_slack_message (now : Int) (payload : PyVal) : Option UnifiedMessage :=
  match normalize_slack_message_body now payload with
  | .ok r => r
  | .error _ => Option.none

/-- The `try`-body of `normalize_teams_message(payload)` (`normalizer.py`
lines 154-192). -/
def normalize_teams_message_body (now : Int) (payload : PyVal) :
    Except String (Option UnifiedMessage) := do
  let ty ← pyGetD payload "type" PyVal.none
  if ¬ pyEqStr ty "message" then return Option.none
  let channelData ← pyGetD payload "channelData" (.dict [])
  let tenant ← pyGetD channelData "tenant" (.dict [])
  let tenantId ← pyGetD tenant "id" PyVal.none
  let conversation ← pyGetD payload "conversation" (.dict [])
  let conversationId ← pyGetD conversation "id" PyVal.none
  let fromField ← pyGetD payload "from" (.dict [])
  let senderId ← pyGetD fromField "id" PyVal.none
  let text ← pyGetD payload "text" PyVal.none
  let timestamp ← pyGetD payload "timestamp" PyVal.none
  let tsMs := parse_timestamp_to_ms now timestamp
  let roomKey := "teams:" ++ pyStr tenantId ++ ":" ++ pyStr conversationId
  let attachments ← pyGetD payload "attachments" (.list [])
  let contentType ←
    if pyTruthy attachments then do
      let attachment ← pyIndex attachments 0
      determineTeamsAttachmentType attachment
    else pure (PyVal.str "text")
  return Option.some
    { platform := "teams", room_key := roomKey, sender_id := senderId,
      ts := .int tsMs, role := "user", text := text,
      content_type := contentType, s3_uri := PyVal.none }

/-- `normalize_teams_message(payload)` with its catch-all. -/
def normalize_teams_message (now : Int) (payload : PyVal) : Option UnifiedMessage :=
  match normalize_teams_message_body now payload with
  | .ok r => r
  | .error _ => Option.none

/-- The `try`-body of `normalize_line_message(payload)` (`normalizer.py`
lines 207-257); `LineNormalizer.normalize` (`normalizers/line_normalizer.py`
lines 29-91) is line-for-line the same logic. -/
def normalize_line_message_body (now : Int) (payload : PyVal) :
    Except String (Option UnifiedMessage) := do
  let events ← pyGetD payload "events" (.list [])
  if ¬ pyTruthy events then return Option.none
  let n ← pyLen events
  if n == 0 then return Option.none
  let event ← pyIndex events 0
  let ety ← pyGetD event "type" PyVal.none
  if ¬ pyEqStr ety "message" then return Option.none
  let source ← pyGetD event "source" (.dict [])
  let sourceType ← pyGetD source "type" PyVal.none
  let userId ← pyGetD source "userId" PyVal.none
  let groupId ← pyGetD source "groupId" PyVal.none
  let roomId ← pyGetD source "roomId" PyVal.none
  let sourceId := pyOr (pyOr userId groupId) roomId
  let message ← pyGetD event "message" (.dict [])
  let messageType ← pyGetD message "type" PyVal.none
  let text ←
    if pyEqStr messageType "text" then pyGetD message "text" PyVal.none
    else pure PyVal.none
  let timestamp ← pyGetD event "timestamp" PyVal.none
  let tsMs := if pyTruthy timestamp then timestamp else PyVal.int now
  let roomKey := "line:" ++ pyStr sourceType ++ ":" ++ pyStr sourceId
  let contentType := pyOr messageType (.str "text")
  let senderId ← pyGetD source "userId" (.str "unknown")
  return Option.some
    { platform := "line", room_key := roomKey, sender_id := senderId,
      ts := tsMs, role := "user", text := text,
      content_type := contentType, s3_uri := PyVal.none }

/-- `normalize_line_message(payload)` with its catch-all (also
`LineNormalizer.normalize`). -/
def normalize_line_message (now : Int) (payload : PyVal) : Option UnifiedMessage :=
  match normalize_line_message_body now payload with
  | .ok r => r
  | .error _ => Option.none

/-- The `try`-body of module-level `normalize_custom_message(payload)`
(`normalizer.py` lines 272-306): note this variant has no required-field
validation. -/
def normalize_custom_message_body (now : Int) (payload : PyVal) :
    Except String (Option UnifiedMessage) := do
  let roomId ← pyGetD payload "roomId" PyVal.none
  let senderId ← pyGetD payload "senderId" PyVal.none
  let text ← pyGetD payload "text" PyVal.none
  let timestamp ← pyGetD payload "timestamp" PyVal.none
  let tsMs ←
    if pyTruthy timestamp then (pyToInt timestamp).map PyVal.int
    else pure (PyVal.int now)
  let roomKey := "custom:" ++ pyStr roomId
  let contentType ← pyGetD payload "contentType" (.str "text")
  let _binaryData ← pyGetD payload "binaryData" PyVal.none
  return Option.some
    { platform := "custom", room_key := roomKey, sender_id := senderId,
      ts := tsMs, role := "user", text := text,
      content_type := contentType, s3_uri := PyVal.none }

/-- Module-level `normalize_custom_message(payload)` with its catch-all. -/
def normalize_custom_message (now : Int) (payload : PyVal) : Option UnifiedMessage :=
  match normalize_custom_message_body now payload with
  | .ok r => r
  | .error _ => Option.none

/-- The `try`-body of `CustomNormalizer.normalize(payload)`
(`normalizers/custom_normalizer.py` lines 38-78): `chatId`/`userId`
fallbacks, required-field validation, binary-dependent content type. -/
def custom_normalizer_body (now : Int) (payload : PyVal) :
    Except String (Option UnifiedMessage) := do
  let chatId ← pyGetD payload "chatId" PyVal.none
  let roomIdField ← pyGetD payload "roomId" PyVal.none
  let roomId := pyOr roomIdField chatId
  let userId ← pyGetD payload "userId" PyVal.none
  let senderIdField ← pyGetD payload "senderId" PyVal.none
  let senderId := pyOr senderIdField userId
  let text ← pyGetD payload "text" PyVal.none
  let timestamp ← pyGetD payload "timestamp" PyVal.none
  if ¬ pyTruthy roomId ∨ ¬ pyTruthy senderId ∨ ¬ pyTruthy text then
    return Option.none
  let tsMs ←
    if pyTruthy timestamp then (pyToInt timestamp).map PyVal.int
    else pure (PyVal.int now)
  let roomKey := "custom:" ++ pyStr roomId
  let contentTypeInit ← pyGetD payload "contentType" (.str "text")
  let binaryData ← pyGetD payload "binaryData" PyVal.none
  let contentType ←
    if pyTruthy binaryData then pyGetD payload "contentType" (.str "file")
    else pure contentTypeInit
  return Option.some
    { platform := "custom", room_key := roomKey, sender_id := senderId,
      ts := tsMs, role := "user", text := text,
      content_type := contentType, s3_uri := PyVal.none }

/-- `CustomNormalizer.normalize(payload)` with its catch-all. -/
def custom_normalizer_normalize (now : Int) (payload : PyVal) : Option UnifiedMessage :=
  match custom_normalizer_body now payload with
  | .ok r => r
  | .error _ => Option.none

/-- The per-request outcome of each step feeding
`BaseWebhookHandler.handle`: the signature-verification result, the
platform pre-process result (possibly a short-circuit response, possibly an
exception), the normaliser result, the binary post-step, and the effectful
persistence and post-process steps (exceptions as `Except.error`).  The
concrete subclasses instantiate these fields; `handle` itself is the fixed
state machine over them. -/
structure HandlerSteps where
  verify : Bool
  pre : Except String (Option LambdaResponse)
  normalize : Option UnifiedMessage
  processBinary : UnifiedMessage → UnifiedMessage
  save : UnifiedMessage → Except String Unit
  post : UnifiedMessage → Except String Unit

/-- The `try`-body of `BaseWebhookHandler.handle` (`base_handler.py` lines
61-99): verify → 401; pre-process short-circuit; normalise → `None` gives
the 200 "ignored" success; binary processing; persistence; post-process;
then the 200 platform success response.  Any escaped exception is the
`Except.error` case. -/
def base_handle_body (platform nowIso : String) (st : HandlerSteps) :
    Except String LambdaResponse := do
  if ¬ st.verify then
    return create_error_response 401 "Unauthorized"
      ("Invalid " ++ platform ++ " signature") nowIso
  match ← st.pre with
  | Option.some preResult => return preResult
  | Option.none =>
    match st.normalize with
    | Option.none =>
      return create_success_response
        (create_ignored_response platform
          ("Non-message " ++ platform ++ " event ignored") nowIso) 200
    | Option.some message0 =>
      let message := st.processBinary message0
      let _ ← st.save message
      let _ ← st.post message
      return create_success_response
        (create_platform_success_response platform message.room_key message.ts nowIso)
        200

/-- `BaseWebhookHandler.handle` with its catch-all `except` mapping any
escaped exception to the 500 response (`base_handler.py` lines 101-103). -/
def base_handle (platform nowIso : String) (st : HandlerSteps) : LambdaResponse :=
  match base_handle_body platform nowIso st with
  | .ok r => r
  | .error e => create_error_response 500 "Internal Server Error" e nowIso

/-- `CustomWebhookHandler._post_process` (`custom_handler.py` lines
145-158): when the saved message is a user message with text, trigger the
AI dispatch (`_trigger_ai_processing`, abstracted as `triggerAi` — itself a
network effect that may fail); every exception is caught and logged,
never re-raised. -/
def custom_post_process (triggerAi : UnifiedMessage → Except String Unit)
    (message : UnifiedMessage) : Except String Unit :=
  match
    (if message.role == "user" ∧ pyTruthy message.text then triggerAi message
     else Except.ok ()) with
  | .ok _ => .ok ()
  | .error _ => .ok ()

/-- `SlackWebhookHandler._pre_process` (`slack_handler.py` lines 72-84) and
the identical inline challenge check of the module-level Slack path: answer
`url_verification` payloads with the echoed challenge. -/
def slack_pre_process (body : PyVal) : Except String (Option LambdaResponse) := do
  let ty ← pyGetD body "type" PyVal.none
  if pyEqStr ty "url_verification" then
    let challenge ← pyGetD body "challenge" (.str "")
    return Option.some (create_success_response (.dict [("challenge", challenge)]) 200)
  return Option.none

/-- The `try`-body of module-level `_handle_custom_webhook(body, event)`
(`webhook_handler.py` lines 98-128): optional signature check over
`json.dumps(body)`, then module-level normalisation whose `None` outcome is
answered with a 400 error (unlike every other platform path), then binary
processing and persistence, then the 200 success body. -/
def handle_custom_webhook_body (macHex : String → String → String)
    (customUiSecret : String) (body : PyVal) (event : LambdaEvent)
    (now : Int) (nowIso : String)
    (processBinary : UnifiedMessage → PyVal → PyVal → UnifiedMessage)
    (save : UnifiedMessage → Except String Unit) :
    Except String LambdaResponse := do
  if customUiSecret != "" then
    let signature := headerGet event "x-custom-signature"
    if ¬ verify_custom_signature macHex customUiSecret (pyJsonDumps body) signature then
      return create_error_response 401 "Unauthorized" "Invalid signature" nowIso
  match normalize_custom_message now body with
  | Option.none =>
    return create_error_response 400 "Bad Request" "Invalid message format" nowIso
  | Option.some message0 =>
    let binaryData ← pyGetD body "binaryData" PyVal.none
    let fileExtension ← pyGetD body "fileExtension" PyVal.none
    let message :=
      if pyTruthy binaryData then processBinary message0 binaryData fileExtension
      else message0
    let _ ← save message
    return create_success_response
      (.dict
        [("status", .str "success"),
         ("platform", .str "custom"),
         ("message", .str "Custom UI webhook processed successfully"),
         ("timestamp", .str nowIso),
         ("roomKey", .str message.room_key),
         ("messageTs", message.ts)]) 200

/-- `_handle_custom_webhook` with its catch-all 500. -/
def handle_custom_webhook (macHex : String → String → String)
    (customUiSecret : String) (body : PyVal) (event : LambdaEvent)
    (now : Int) (nowIso : String)
    (processBinary : UnifiedMessage → PyVal → PyVal → UnifiedMessage)
    (save : UnifiedMessage → Except String Unit) : LambdaResponse :=
  match handle_custom_webhook_body macHex customUiSecret body event now nowIso
      processBinary save with
  | .ok r => r
  | .error e => create_error_response 500 "Internal Server Error" e nowIso

/-- The `try`-body of module-level `_handle_line_webhook(body, event)`
(`webhook_handler.py` lines 148-185): optional signature check over
`json.dumps(body)`, normalisation whose `None` outcome is a 200 "ignored"
success, persistence, then the 200 success body. -/
def handle_line_webhook_body (macB64 : String → String → String)
    (lineChannelSecret : String) (body : PyVal) (event : LambdaEvent)
    (now : Int) (nowIso : String) (save : UnifiedMessage → Except String Unit) :
    Except String LambdaResponse := do
  if lineChannelSecret != "" then
    let signature := headerGet event "x-line-signature"
    if ¬ verify_line_signature macB64 lineChannelSecret (pyJsonDumps body) signature then
      return create_error_response 401 "Unauthorized" "Invalid LINE signature" nowIso
  match normalize_line_message now body with
  | Option.none =>
    return create_success_response
      (.dict
        [("status", .str "ignored"),
         ("platform", .str "line"),
         ("message", .str "Non-message LINE event ignored"),
         ("timestamp", .str nowIso)]) 200
  | Option.some message =>
    let _ ← save message
    return create_success_response
      (.dict
        [("status", .str "success"),
         ("platform", .str "line"),
         ("message", .str "LINE webhook processed successfully"),
         ("timestamp", .str nowIso),
         ("roomKey", .str message.room_key),
         ("messageTs", message.ts)]) 200

/-- `_handle_line_webhook` with its catch-all 500. -/
def handle_line_webhook (macB64 : String → String → String)
    (lineChannelSecret : String) (body : PyVal) (event : LambdaEvent)
    (now : Int) (nowIso : String) (save : UnifiedMessage → Except String Unit) :
    LambdaResponse :=
  match handle_line_webhook_body macB64 lineChannelSecret body event now nowIso save with
  | .ok r => r
  | .error e => create_error_response 500 "Internal Server Error" e nowIso

/-- The `try`-body of module-level `_handle_slack_webhook(body, event)`
(`webhook_handler.py` lines 205-248): optional signature check over the raw
body, the `url_verification` challenge answer, normalisation whose `None`
outcome is a 200 "ignored" success, persistence, then the 200 success
body. -/
def handle_slack_webhook_body (macHex : String → String → String)
    (slackSigningSecret : String) (body : PyVal) (event : LambdaEvent)
    (now : Int) (nowIso : String) (save : UnifiedMessage → Except String Unit) :
    Except String LambdaResponse := do
  if slackSigningSecret != "" then
    let timestamp := headerGet event "x-slack-request-timestamp"
    let signature := headerGet event "x-slack-signature"
    let rawBody := event.body
    if ¬ verify_slack_signature macHex slackSigningSecret rawBody timestamp signature then
      return create_error_response 401 "Unauthorized" "Invalid Slack signature" nowIso
  match ← slack_pre_process body with
  | Option.some challengeResponse => return challengeResponse
  | Option.none =>
    match normalize_slack_message now body with
    | Option.none =>
      return create_success_response
        (.dict
          [("status", .str "ignored"),
           ("platform", .str "slack"),
           ("message", .str "Non-message Slack event ignored"),
           ("timestamp", .str nowIso)]) 200
    | Option.some message =>
      let _ ← save message
      return create_success_response
        (.dict
          [("status", .str "success"),
           ("platform", .str "slack"),
           ("message", .str "Slack webhook processed successfully"),
           ("timestamp", .str nowIso),
           ("roomKey", .str message.room_key),
           ("messageTs", message.ts)]) 200

/-- `_handle_slack_webhook` with its catch-all 500. -/
def handle_slack_webhook (macHex : String → String → String)
    (slackSigningSecret : String) (body : PyVal) (event : LambdaEvent)
    (now : Int) (nowIso : String) (save : UnifiedMessage → Except String Unit) :
    LambdaResponse :=
  match handle_slack_webhook_body macHex slackSigningSecret body event now nowIso save with
  | .ok r => r
  | .error e => create_error_response 500 "Internal Server Error" e nowIso

/-- The `try`-body of module-level `_handle_teams_webhook(body, event)`
(`webhook_handler.py` lines 268-305). -/
def handle_teams_webhook_body (teamsSecret : String) (body : PyVal)
    (event : LambdaEvent) (now : Int) (nowIso : String)
    (save : UnifiedMessage → Except String Unit) :
    Except String LambdaResponse := do
  if teamsSecret != "" then
    let authHeader := headerGet event "authorization"
    if ¬ verify_teams_auth teamsSecret authHeader then
      return create_error_response 401 "Unauthorized" "Invalid Teams authentication" nowIso
  match normalize_teams_message now body with
  | Option.none =>
    return create_success_response
      (.dict
        [("status", .str "ignored"),
         ("platform", .str "teams"),
         ("message", .str "Non-message Teams activity ignored"),
         ("timestamp", .str nowIso)]) 200
  | Option.some message =>
    let _ ← save message
    return create_success_response
      (.dict
        [("status", .str "success"),
         ("platform", .str "teams"),
         ("message", .str "Teams webhook processed successfully"),
         ("timestamp", .str nowIso),
         ("roomKey", .str message.room_key),
         ("messageTs", message.ts)]) 200

/-- `_handle_teams_webhook` with its catch-all 500. -/
def handle_teams_webhook (teamsSecret : String) (body : PyVal)
    (event : LambdaEvent) (now : Int) (nowIso : String)
    (save : UnifiedMessage → Except String Unit) : LambdaResponse :=
  match handle_teams_webhook_body teamsSecret body event now nowIso save with
  | .ok r => r
  | .error e => create_error_response 500 "Internal Server Error" e nowIso


/-- The amended C3 claim as its own definition, following the corrected
spec words: normalise the text (`lower().strip()`), give each keyword that
occurs as a substring of the message 2 points (the 1-point
substring-of-a-token branch of the source is unreachable, because every
token is itself a substring of the message), return `general` when every
task type scores zero, and otherwise the first task type with the maximal
score in the fixed order technical, creative, analysis, general. -/
def specAmendedClassify (text : String) : String :=
  let message := pyLower (pyStrip text)
  let scores := taskKeywords.map
    (fun tk => (tk.1, 2 * (tk.2.filter (fun keyword => pyContains message keyword)).length))
  if (scores.map (fun p => p.2)).foldl max 0 == 0 then "general"
  else
    match scores with
    | [] => "general"
    | first :: rest => firstArgmax first rest

/-- The caller-visible outcome of `LineNormalizer.normalize` /
`normalize_line_message` with exceptions made explicit: the `except` clause
catches every exception the body raises and converts it into the `None`
result, so the call itself can only return `ok`. -/
def line_normalize_result (now : Int) (payload : PyVal) :
    Except String (Option UnifiedMessage) :=
  match normalize_line_message_body now payload with
  | .ok r => .ok r
  | .error _ => .ok Option.none

/-- The caller-visible outcome of `CustomNormalizer.normalize` with
exceptions made explicit. -/
def custom_normalize_result (now : Int) (payload : PyVal) :
    Except String (Option UnifiedMessage) :=
  match custom_normalizer_body now payload with
  | .ok r => .ok r
  | .error _ => .ok Option.none

/-- A concrete canonical message (a custom-UI user message with text). -/
def exampleCustomMessage : UnifiedMessage :=
  { platform := "custom", room_key := "custom:r1", sender_id := .str "u1",
    ts := .int 1000, role := "user", text := .str "hi",
    content_type := .str "text", s3_uri := PyVal.none }

/-- A failing AI-dispatch effect (the SQS enqueue raising). -/
def exampleFailingTrigger : UnifiedMessage → Except String Unit :=
  fun _ => .error "SQS unavailable"

/-- Concrete handler steps for a request whose verification, pre-check,
normalization and persistence succeed while the custom post-process
dispatch fails. -/
def exampleSteps : HandlerSteps :=
  { verify := true, pre := .ok Option.none,
    normalize := Option.some exampleCustomMessage,
    processBinary := id, save := fun _ => .ok (),
    post := custom_post_process exampleFailingTrigger }

/-- Concrete handler steps for a verified request that the normalizer
rejects as a non-message event. -/
def exampleIgnoredSteps : HandlerSteps :=
  { verify := true, pre := .ok Option.none, normalize := Option.none,
    processBinary := id, save := fun _ => .ok (), post := fun _ => .ok () }

/-- A concrete chat-history table: three rows of room `custom:r1` with
distinct timestamps and one row of another room. -/
def exampleStore : List StoredItem :=
  [⟨"custom:r1", 5, []⟩, ⟨"custom:r2", 7, []⟩, ⟨"custom:r1", 3, []⟩,
   ⟨"custom:r1", 9, []⟩]

/-! ## Helper lemmas -/

theorem containsChars_iff (n h : List Char) : containsChars n h = true ↔ n <:+: h := by
  induction h with
  | nil =>
    simp [containsChars, List.isEmpty_iff]
  | cons c t ih =>
    simp only [containsChars, Bool.or_eq_true, List.isPrefixOf_iff_prefix, ih]
    constructor
    · rintro (hp | hi)
      · exact hp.isInfix
      · exact hi.trans (List.suffix_cons c t).isInfix
    · intro hin
      rcases List.infix_cons_iff.mp hin with hp | hi
      · exact Or.inl hp
      · exact Or.inr hi

theorem splitWsAux_spec (l : List Char) :
    ∃ w ws, splitWsAux l = w :: ws ∧ w <+: l ∧ ∀ u ∈ ws, u <:+: l := by
  induction l with
  | nil => exact ⟨[], [], rfl, List.nil_prefix, by simp⟩
  | cons c t ih =>
    rcases ih with ⟨w, ws, hsplit, hw, hws⟩
    by_cases hc : pyIsSpace c = true
    · refine ⟨[], w :: ws, ?_, List.nil_prefix, ?_⟩
      · simp [splitWsAux, hc, hsplit]
      · intro u hu
        rcases List.mem_cons.mp hu with rfl | hu
        · exact (hw.isInfix).trans (List.suffix_cons c t).isInfix
        · exact (hws u hu).trans (List.suffix_cons c t).isInfix
    · have hpre : c :: w <+: c :: t := by
        obtain ⟨r, hr⟩ := hw
        exact ⟨r, by rw [List.cons_append, hr]⟩
      refine ⟨c :: w, ws, ?_, hpre, ?_⟩
      · simp [splitWsAux, hc, hsplit]
      · intro u hu
        exact (hws u hu).trans (List.suffix_cons c t).isInfix

theorem mem_splitWsAux_infix {u : List Char} {l : List Char} (hu : u ∈ splitWsAux l) :
    u <:+: l := by
  rcases splitWsAux_spec l with ⟨w, ws, hsplit, hw, hws⟩
  rw [hsplit] at hu
  rcases List.mem_cons.mp hu with rfl | hu
  · exact hw.isInfix
  · exact hws u hu

theorem token_match_implies_contains (msg keyword : String)
    (h : (pySplitWs msg).any (fun w => pyContains w keyword) = true) :
    pyContains msg keyword = true := by
  rcases List.any_eq_true.mp h with ⟨w, hw, hkw⟩
  simp only [pySplitWs, List.mem_filter, List.mem_map] at hw
  rcases hw with ⟨⟨u, hu, rfl⟩, _⟩
  have h1 : keyword.data <:+: u := (containsChars_iff _ _).mp hkw
  have h2 : u <:+: msg.data := mem_splitWsAux_infix hu
  exact (containsChars_iff _ _).mpr (h1.trans h2)

theorem taskScore_eq (msg : String) (kws : List String) :
    taskScore msg kws = 2 * (kws.filter (fun kw => pyContains msg kw)).length := by
  suffices h : ∀ acc, kws.foldl
      (fun score keyword =>
        if pyContains msg keyword then score + 2
        else if (pySplitWs msg).any (fun word => pyContains word keyword) then score + 1
        else score) acc = acc + 2 * (kws.filter (fun kw => pyContains msg kw)).length by
    simpa [taskScore] using h 0
  induction kws with
  | nil => intro acc; simp
  | cons kw rest ih =>
    intro acc
    by_cases hc : pyContains msg kw = true
    · simp only [List.foldl_cons, hc, if_true, ih, List.filter_cons, List.length_cons]
      ring
    · have htok : ((pySplitWs msg).any (fun word => pyContains word kw)) = false := by
        by_contra habs
        exact hc (token_match_implies_contains msg kw
          (eq_true_of_ne_false (fun hne => habs hne)))
      simp only [List.foldl_cons, hc, if_false, htok, ih, List.filter_cons,
        Bool.false_eq_true]

theorem classifyText_eq_spec (text : String) :
    classifyText text = specAmendedClassify text := by
  simp only [classifyText, specAmendedClassify, classify_task, taskScore_eq]

/-! ## Claim theorems -/

/-- C3 (counterexample): the classifier is `classify = _classify_task` after
`lower().strip()`.  On `"hello debugging bugs"` the claim's scoring rules
(exact token = 2, substring-of-a-token = 1) give technical = 1+1 = 2 (for
`bug`, `debug` inside the token `debugging`/`bugs`) and general = 2 (exact
token `hello`), a tie, which the claim says must yield `general`.  The code
instead scores every substring-of-the-message hit with 2 (technical = 4,
general = 2; the 1-point branch is unreachable) and breaks ties by the
first maximal entry, returning `technical` — refuting both the scoring rule
and the tie rule at this input. -/
theorem C3_counterexample :
    classifyText "hello debugging bugs" = "technical"
    ∧ taskKeywords.map
        (fun tk => (tk.1, taskScore (pyLower (pyStrip "hello debugging bugs")) tk.2)) =
      [("technical", 4), ("creative", 0), ("analysis", 0), ("general", 2)]
    ∧ "technical" ≠ "general" := by
  refine ⟨by decide, by decide, by decide⟩

/-- C3 (amended): `classify(text)` lower-cases and strips the text, scores
each keyword set case-insensitively giving 2 points per keyword occurring
as a substring of the message (the 1-point substring-of-a-token branch is
unreachable because each token is itself a substring of the message);
all-zero scores give `general`, and otherwise the winner is the first task
type with the maximal score in the order technical, creative, analysis,
general.  The three example classifications of the spec hold. -/
theorem C3_amended :
    (∀ text, classifyText text = specAmendedClassify text)
    ∧ classifyText "please fix this bug in the function" = "technical"
    ∧ classifyText "write a short story" = "creative"
    ∧ classifyText "hello" = "general" :=
  ⟨classifyText_eq_spec, by decide, by decide, by decide⟩

/-- C7 (counterexample): the upgrade/downgrade is implemented as a
case-insensitive detection (`'haiku' in base_model.lower()`) followed by a
case-sensitive `replace('haiku', 'sonnet')`.  For the mixed-case base model
`"Claude-3-Haiku"` at high complexity the detection fires but the
replacement is a no-op, so the selection is NOT upgraded to the capable
tier; symmetrically `"Claude-Sonnet"` at low complexity on a general task
is not downgraded.  This refutes the claim's universally quantified
upgrade/downgrade statements. -/
theorem C7_counterexample :
    determine_model "technical" "high" [] "Claude-3-Haiku" = "Claude-3-Haiku"
    ∧ pyContains (pyLower "Claude-3-Haiku") "haiku" = true
    ∧ pyContains (pyLower "Claude-3-Haiku") "sonnet" = false
    ∧ determine_model "general" "low" [] "Claude-Sonnet" = "Claude-Sonnet"
    ∧ pyContains (pyLower "Claude-Sonnet") "sonnet" = true
    ∧ pyContains (pyLower "Claude-Sonnet") "haiku" = false := by
  refine ⟨by decide, by decide, by decide, by decide, by decide, by decide⟩

/-- C7 (amended): with `base` the task-mapping entry or the default model:
at high complexity, when `base` contains `"haiku"` case-insensitively, the
selection is `base.replace("haiku", "sonnet")` (the lowercase occurrences
replaced — an upgrade exactly when the occurrence is lowercase), else
`base` unchanged; at low complexity on a general task, when `base` contains
`"sonnet"` case-insensitively, the selection is
`base.replace("sonnet", "haiku")`; every other combination of task type,
complexity and base model leaves the selection equal to `base`.  On the
lowercase production model ids the replacement is the claimed tier
change. -/
theorem C7_amended :
    (∀ t m d, pyContains (pyLower (baseModelOf m t d)) "haiku" = true →
      determine_model t "high" m d = pyReplace (baseModelOf m t d) "haiku" "sonnet")
    ∧ (∀ t m d, pyContains (pyLower (baseModelOf m t d)) "haiku" = false →
      determine_model t "high" m d = baseModelOf m t d)
    ∧ (∀ m d, pyContains (pyLower (baseModelOf m "general" d)) "sonnet" = true →
      determine_model "general" "low" m d = pyReplace (baseModelOf m "general" d) "sonnet" "haiku")
    ∧ (∀ t m d, t ≠ "general" → determine_model t "low" m d = baseModelOf m t d)
    ∧ (∀ t m d, pyContains (pyLower (baseModelOf m t d)) "sonnet" = false →
      determine_model t "low" m d = baseModelOf m t d)
    ∧ (∀ t c m d, c ≠ "high" → c ≠ "low" → determine_model t c m d = baseModelOf m t d)
    ∧ determine_model "technical" "high" [] "anthropic.claude-3-5-haiku-20241022-v2:0" =
        "anthropic.claude-3-5-sonnet-20241022-v2:0" := by
  refine ⟨?_, ?_, ?_, ?_, ?_, ?_, by decide⟩
  · intro t m d h
    simp [determine_model, h]
  · intro t m d h
    simp [determine_model, h]
  · intro m d h
    simp [determine_model, h]
  · intro t m d h
    simp only [determine_model]
    rw [if_neg (by simp), if_pos (by simp)]
    rw [if_neg]
    simp [h]
  · intro t m d h
    simp [determine_model, h]
  · intro t c m d h1 h2
    simp [determine_model, h1, h2]

/-- C7 (witness): the amended upgrade conjunct applied at a concrete
mapping whose technical model is a lowercase haiku id. -/
theorem C7_witness :
    pyContains
        (pyLower (baseModelOf [("technical", "my-haiku-v1")] "technical" "dflt"))
        "haiku" = true
    ∧ determine_model "technical" "high" [("technical", "my-haiku-v1")] "dflt" =
        pyReplace (baseModelOf [("technical", "my-haiku-v1")] "technical" "dflt")
          "haiku" "sonnet" :=
  ⟨by decide, C7_amended.1 "technical" [("technical", "my-haiku-v1")] "dflt" (by decide)⟩

/-- C4 (counterexample): the parser first tests Python truthiness
(`if not timestamp`), so the numeric input `0` — whose integer part has one
decimal digit, which the claim says must be multiplied by 1000 and returned
as `0` — instead falls into the "absent" branch and returns the wall clock
(999 here).  Moreover the 10-digit test is `len(str(int(x))) <= 10`, which
counts the minus sign: the 10-digit negative `-1234567890` is returned
as-is instead of multiplied by 1000. -/
theorem C4_counterexample :
    parse_timestamp_to_ms 999 (.int 0) = 999
    ∧ (999 : Int) ≠ 0 * 1000
    ∧ parse_timestamp_to_ms 999 (.int (-1234567890)) = -1234567890
    ∧ (-1234567890 : Int) ≠ -1234567890 * 1000 := by
  refine ⟨by decide, by decide, by decide, by decide⟩

/-- C4 (amended): the parser is total by construction (every raised error is
caught and mapped to the wall clock).  Falsy inputs — absent, the empty
string, and the number 0 — yield the wall clock `now`; a nonzero integer is
multiplied by 1000 when `str(int(x))` (sign included) has at most 10
characters and returned as-is otherwise; a string containing `T` or `Z` is
parsed as ISO-8601 with `Z` as UTC (the spec's example value shown
concretely); any other numeric string follows the same 10-character
heuristic applied to the part before the first `.`; every other string
yields `now`.  `parse(1617235678) = 1617235678000` and
`parse(1617235678000) = 1617235678000` hold as claimed. -/
theorem C4_amended :
    (∀ now : Int, parse_timestamp_to_ms now PyVal.none = now
      ∧ parse_timestamp_to_ms now (.str "") = now
      ∧ parse_timestamp_to_ms now (.int 0) = now)
    ∧ (∀ (now n : Int), n ≠ 0 → (toString n).length ≤ 10 →
        parse_timestamp_to_ms now (.int n) = n * 1000)
    ∧ (∀ (now n : Int), (toString n).length > 10 →
        parse_timestamp_to_ms now (.int n) = n)
    ∧ (∀ now : Int,
        parse_timestamp_to_ms now (.str "2021-03-31T12:34:56.123Z") = 1617194096123)
    ∧ (∀ (now : Int) (s : String), s ≠ "" → pyContains s "T" = false →
        pyContains s "Z" = false → pyFloatOfString s = Option.none →
        parse_timestamp_to_ms now (.str s) = now)
    ∧ (∀ (now : Int) (s : String) (d : PyDec), s ≠ "" → pyContains s "T" = false →
        pyContains s "Z" = false → pyFloatOfString s = Option.some d →
        parse_timestamp_to_ms now (.str s) =
          (if (pySplitDot s).headI.data.length ≤ 10
           then truncDec (decMul1000 d) else truncDec d))
    ∧ parse_timestamp_to_ms 999 (.int 1617235678) = 1617235678000
    ∧ parse_timestamp_to_ms 999 (.int 1617235678000) = 1617235678000 := by
  refine ⟨?_, ?_, ?_, ?_, ?_, ?_, by decide, by decide⟩
  · intro now
    refine ⟨by simp [parse_timestamp_to_ms, pyTruthy], ?_, ?_⟩
    · simp [parse_timestamp_to_ms, pyTruthy]
    · simp [parse_timestamp_to_ms, pyTruthy]
  · intro now n hn hlen
    simp [parse_timestamp_to_ms, parseTsBody, pyTruthy, hn, hlen]
  · intro now n hlen
    have hn : n ≠ 0 := by
      intro h0
      rw [h0] at hlen
      revert hlen
      decide
    have hlen' : ¬((toString n).length ≤ 10) := by omega
    simp [parse_timestamp_to_ms, parseTsBody, pyTruthy, hn, hlen']
  · intro now
    have h1 : isoToEpochMs (pyReplace "2021-03-31T12:34:56.123Z" "Z" "+00:00") =
        .ok 1617194096123 := by rfl
    simp +decide [parse_timestamp_to_ms, parseTsBody, pyTruthy, h1]
  · intro now s hne hT hZ hF
    simp [parse_timestamp_to_ms, parseTsBody, pyTruthy, hne, hT, hZ, hF]
  · intro now s d hne hT hZ hF
    simp [parse_timestamp_to_ms, parseTsBody, pyTruthy, hne, hT, hZ, hF]

/-- C4 (witness): the seconds-heuristic conjunct applied at the spec's own
example input. -/
theorem C4_witness :
    (1617235678 : Int) ≠ 0
    ∧ (toString (1617235678 : Int)).length ≤ 10
    ∧ parse_timestamp_to_ms 5 (.int 1617235678) = 1617235678 * 1000 :=
  ⟨by decide, by decide, C4_amended.2.1 5 1617235678 (by decide) (by decide)⟩

/-- C9 (confirmed): the persisted row of `save_message` holds exactly the
attributes `PK` (the room key), `SK` (the message timestamp), `role`,
`contentType` and `ttl` (write-time seconds plus `TTL_SECONDS`, default
86400), plus `text` only when the text is truthy and `s3Uri` only when the
blob reference is truthy; `senderId` and `platform` are not attributes of
the row. -/
theorem C9_save_message (nowSeconds ttlSeconds : Int) (m : UnifiedMessage) :
    (save_message_item nowSeconds ttlSeconds m).map Prod.fst =
      ["PK", "SK", "role", "contentType", "ttl"]
        ++ (if pyTruthy m.text then ["text"] else [])
        ++ (if pyTruthy m.s3_uri then ["s3Uri"] else [])
    ∧ pyLookup (save_message_item nowSeconds ttlSeconds m) "PK" =
        Option.some (.str m.room_key)
    ∧ pyLookup (save_message_item nowSeconds ttlSeconds m) "SK" = Option.some m.ts
    ∧ pyLookup (save_message_item nowSeconds ttlSeconds m) "role" =
        Option.some (.str m.role)
    ∧ pyLookup (save_message_item nowSeconds ttlSeconds m) "contentType" =
        Option.some m.content_type
    ∧ pyLookup (save_message_item nowSeconds ttlSeconds m) "ttl" =
        Option.some (.int (nowSeconds + ttlSeconds))
    ∧ pyLookup (save_message_item nowSeconds ttlSeconds m) "text" =
        (if pyTruthy m.text then Option.some m.text else Option.none)
    ∧ pyLookup (save_message_item nowSeconds ttlSeconds m) "s3Uri" =
        (if pyTruthy m.s3_uri then Option.some m.s3_uri else Option.none)
    ∧ pyLookup (save_message_item nowSeconds ttlSeconds m) "senderId" = Option.none
    ∧ pyLookup (save_message_item nowSeconds ttlSeconds m) "platform" = Option.none
    ∧ TTL_SECONDS_DEFAULT = 86400 := by
  by_cases ht : pyTruthy m.text = true <;> by_cases hs : pyTruthy m.s3_uri = true <;>
    simp_all [save_message_item, pyLookup, TTL_SECONDS_DEFAULT]

/-- C8 (confirmed): for every payload value — of any shape, including
non-dict payloads, missing fields and wrongly typed fields — the cited
normalizers return `ok` of either a message or `None` and never propagate
an exception: the catch-all `except` converts every error the body raises
(shown really to occur at a malformed input, where the class custom
normalizer's `int(timestamp)` raises) into the `None` outcome. -/
theorem C8_normalizers_total :
    (∀ now payload, ∃ r : Option UnifiedMessage,
        line_normalize_result now payload = .ok r
        ∧ normalize_line_message now payload = r)
    ∧ (∀ now payload, ∃ r : Option UnifiedMessage,
        custom_normalize_result now payload = .ok r
        ∧ custom_normalizer_normalize now payload = r)
    ∧ (∃ e, custom_normalizer_body 0
        (.dict [("chatId", .str "c1"), ("senderId", .str "u1"),
                ("text", .str "hi"), ("timestamp", .str "not-a-number")]) = .error e)
    ∧ custom_normalizer_normalize 0
        (.dict [("chatId", .str "c1"), ("senderId", .str "u1"),
                ("text", .str "hi"), ("timestamp", .str "not-a-number")]) = Option.none
    ∧ normalize_line_message 0 (.str "not a dict") = Option.none
    ∧ normalize_line_message 0 (.dict [("events", .int 5)]) = Option.none := by
  refine ⟨?_, ?_, ⟨"ValueError", by rfl⟩, by rfl, by rfl, by rfl⟩
  · intro now payload
    unfold line_normalize_result normalize_line_message
    cases normalize_line_message_body now payload with
    | ok r => exact ⟨r, rfl, rfl⟩
    | error e => exact ⟨Option.none, rfl, rfl⟩
  · intro now payload
    unfold custom_normalize_result custom_normalizer_normalize
    cases custom_normalizer_body now payload with
    | ok r => exact ⟨r, rfl, rfl⟩
    | error e => exact ⟨Option.none, rfl, rfl⟩

theorem custom_post_process_ok (triggerAi : UnifiedMessage → Except String Unit)
    (message : UnifiedMessage) : custom_post_process triggerAi message = .ok () := by
  unfold custom_post_process
  split <;> rfl

/-- C6 (confirmed): when normalization produced a message and `save_message`
succeeded, the handler returns the 200 success response carrying the
platform, the room key and the message timestamp, for EVERY outcome of the
custom post-process step (`_post_process` catches all of its exceptions,
including a failing AI-job enqueue, and returns normally), so a
post-process failure never changes the already-successful response. -/
theorem C6_post_process_soft_fail (platform nowIso : String) (st : HandlerSteps)
    (message : UnifiedMessage) (triggerAi : UnifiedMessage → Except String Unit)
    (hv : st.verify = true) (hp : st.pre = .ok Option.none)
    (hn : st.normalize = Option.some message)
    (hpost : st.post = custom_post_process triggerAi)
    (hsave : st.save (st.processBinary message) = .ok ()) :
    base_handle platform nowIso st =
      create_success_response
        (create_platform_success_response platform (st.processBinary message).room_key
          (st.processBinary message).ts nowIso) 200
    ∧ st.post (st.processBinary message) = .ok () := by
  refine ⟨?_, by rw [hpost]; exact custom_post_process_ok _ _⟩
  unfold base_handle base_handle_body
  rw [hv, hp, hn, hpost]
  simp [hsave, custom_post_process_ok, Bind.bind, Except.bind, Pure.pure, Except.pure]

/-- C6 (witness): the theorem applied to a concrete request whose AI
dispatch raises, still producing the 200 success response. -/
theorem C6_witness :
    (exampleSteps.verify = true
      ∧ exampleSteps.pre = .ok Option.none
      ∧ exampleSteps.normalize = Option.some exampleCustomMessage
      ∧ exampleSteps.post = custom_post_process exampleFailingTrigger
      ∧ exampleSteps.save (exampleSteps.processBinary exampleCustomMessage) = .ok ())
    ∧ (base_handle "custom" "2025-01-01T00:00:00" exampleSteps =
        create_success_response
          (create_platform_success_response "custom"
            (exampleSteps.processBinary exampleCustomMessage).room_key
            (exampleSteps.processBinary exampleCustomMessage).ts "2025-01-01T00:00:00")
          200
      ∧ exampleSteps.post (exampleSteps.processBinary exampleCustomMessage) = .ok ()) :=
  ⟨⟨rfl, rfl, rfl, rfl, rfl⟩,
   C6_post_process_soft_fail "custom" "2025-01-01T00:00:00" exampleSteps
     exampleCustomMessage exampleFailingTrigger rfl rfl rfl rfl rfl⟩

/-- C2 (counterexample): on the live custom-UI path
(`webhook_handler._handle_custom_webhook`), a request that passes
verification (no secret configured) but whose payload the module-level
normalizer rejects is answered with statusCode 400 "Bad Request", not with
the 200 "ignored" success the claim asserts for every platform handler. -/
theorem C2_counterexample :
    handle_custom_webhook (fun k d => k ++ d) "" (.str "not-json") ⟨[], ""⟩ 0 "T0"
        (fun m _ _ => m) (fun _ => .ok ()) =
      create_error_response 400 "Bad Request" "Invalid message format" "T0"
    ∧ (create_error_response 400 "Bad Request" "Invalid message format" "T0").statusCode
        = 400
    ∧ normalize_custom_message 0 (.str "not-json") = Option.none
    ∧ (400 : Int) ≠ 200 := by
  exact ⟨by decide, by decide, rfl, by decide⟩

/-- C2 (amended): when signature verification and the platform pre-check
pass and the normalizer returns none, the class-based handler and the
module-level line, slack and teams paths answer 200 with status "ignored";
the module-level custom-UI path instead answers 400 "Bad Request". -/
theorem C2_ignored_responses :
    (∀ (platform nowIso : String) (st : HandlerSteps),
      st.verify = true → st.pre = .ok Option.none → st.normalize = Option.none →
      base_handle platform nowIso st =
        create_success_response
          (create_ignored_response platform
            ("Non-message " ++ platform ++ " event ignored") nowIso) 200
      ∧ (base_handle platform nowIso st).statusCode = 200)
    ∧ (∀ macB64 secret body ev now nowIso save,
      (secret = "" ∨
        verify_line_signature macB64 secret (pyJsonDumps body)
          (headerGet ev "x-line-signature") = true) →
      normalize_line_message now body = Option.none →
      handle_line_webhook macB64 secret body ev now nowIso save =
        create_success_response
          (.dict [("status", .str "ignored"), ("platform", .str "line"),
                  ("message", .str "Non-message LINE event ignored"),
                  ("timestamp", .str nowIso)]) 200)
    ∧ (∀ macHex secret body ev now nowIso save,
      (secret = "" ∨
        verify_slack_signature macHex secret ev.body
          (headerGet ev "x-slack-request-timestamp")
          (headerGet ev "x-slack-signature") = true) →
      slack_pre_process body = .ok Option.none →
      normalize_slack_message now body = Option.none →
      handle_slack_webhook macHex secret body ev now nowIso save =
        create_success_response
          (.dict [("status", .str "ignored"), ("platform", .str "slack"),
                  ("message", .str "Non-message Slack event ignored"),
                  ("timestamp", .str nowIso)]) 200)
    ∧ (∀ secret body ev now nowIso save,
      (secret = "" ∨ verify_teams_auth secret (headerGet ev "authorization") = true) →
      normalize_teams_message now body = Option.none →
      handle_teams_webhook secret body ev now nowIso save =
        create_success_response
          (.dict [("status", .str "ignored"), ("platform", .str "teams"),
                  ("message", .str "Non-message Teams activity ignored"),
                  ("timestamp", .str nowIso)]) 200)
    ∧ (∀ macHex secret body ev now nowIso processBinary save,
      (secret = "" ∨
        verify_custom_signature macHex secret (pyJsonDumps body)
          (headerGet ev "x-custom-signature") = true) →
      normalize_custom_message now body = Option.none →
      handle_custom_webhook macHex secret body ev now nowIso processBinary save =
        create_error_response 400 "Bad Request" "Invalid message format" nowIso) := by
  refine ⟨?_, ?_, ?_, ?_, ?_⟩
  · intro platform nowIso st hv hp hn
    constructor
    · unfold base_handle base_handle_body
      rw [hv, hp, hn]
      simp [Bind.bind, Except.bind, Pure.pure, Except.pure]
    · unfold base_handle base_handle_body
      rw [hv, hp, hn]
      simp [Bind.bind, Except.bind, Pure.pure, Except.pure, create_success_response]
  · intro macB64 secret body ev now nowIso save hver hnorm
    unfold handle_line_webhook handle_line_webhook_body
    by_cases hsec : secret = ""
    · simp [hsec, hnorm, Bind.bind, Except.bind, Pure.pure, Except.pure]
    · rcases hver with h0 | hv'
      · exact absurd h0 hsec
      · simp [hsec, hv', hnorm, Bind.bind, Except.bind, Pure.pure, Except.pure]
  · intro macHex secret body ev now nowIso save hver hpre hnorm
    unfold handle_slack_webhook handle_slack_webhook_body
    by_cases hsec : secret = ""
    · simp [hsec, hpre, hnorm, Bind.bind, Except.bind, Pure.pure, Except.pure]
    · rcases hver with h0 | hv'
      · exact absurd h0 hsec
      · simp [hsec, hv', hpre, hnorm, Bind.bind, Except.bind, Pure.pure, Except.pure]
  · intro secret body ev now nowIso save hver hnorm
    unfold handle_teams_webhook handle_teams_webhook_body
    by_cases hsec : secret = ""
    · simp [hsec, hnorm, Bind.bind, Except.bind, Pure.pure, Except.pure]
    · rcases hver with h0 | hv'
      · exact absurd h0 hsec
      · simp [hsec, hv', hnorm, Bind.bind, Except.bind, Pure.pure, Except.pure]
  · intro macHex secret body ev now nowIso processBinary save hver hnorm
    unfold handle_custom_webhook handle_custom_webhook_body
    by_cases hsec : secret = ""
    · simp [hsec, hnorm, Bind.bind, Except.bind, Pure.pure, Except.pure]
    · rcases hver with h0 | hv'
      · exact absurd h0 hsec
      · simp [hsec, hv', hnorm, Bind.bind, Except.bind, Pure.pure, Except.pure]

/-- C2 (witness): the amended theorem applied to a concrete ignored event on
the class-based path and to a concrete rejected payload on the module-level
custom path. -/
theorem C2_witness :
    (exampleIgnoredSteps.verify = true
      ∧ exampleIgnoredSteps.pre = .ok Option.none
      ∧ exampleIgnoredSteps.normalize = Option.none)
    ∧ base_handle "line" "T0" exampleIgnoredSteps =
        create_success_response
          (create_ignored_response "line" "Non-message line event ignored" "T0") 200
    ∧ (("" : String) = "" ∨
        verify_custom_signature (fun k d => k ++ d) ""
          (pyJsonDumps (.str "not-json")) (headerGet ⟨[], ""⟩ "x-custom-signature") = true)
    ∧ normalize_custom_message 0 (.str "not-json") = Option.none
    ∧ handle_custom_webhook (fun k d => k ++ d) "" (.str "not-json") ⟨[], ""⟩ 0 "T0"
        (fun m _ _ => m) (fun _ => .ok ()) =
      create_error_response 400 "Bad Request" "Invalid message format" "T0" :=
  ⟨⟨rfl, rfl, rfl⟩,
   (C2_ignored_responses.1 "line" "T0" exampleIgnoredSteps rfl rfl rfl).1,
   Or.inl rfl, rfl,
   C2_ignored_responses.2.2.2.2 (fun k d => k ++ d) "" (.str "not-json") ⟨[], ""⟩ 0 "T0"
     (fun m _ _ => m) (fun _ => .ok ()) (Or.inl rfl) rfl⟩

/-- C1 (code evaluated at the failing input): only the workspace-chat
(Slack) verifiers MAC the raw request body.  At the concrete LINE request
whose raw body is the compact `'\x7b"events":[]\x7d'`, `json.dumps` of the parsed
body is `'\x7b"events": []\x7d'` — a different byte string — and the LINE class
verifier (which MACs `json.dumps(body)`, `line_handler.py` line 52) rejects
the request even though its signature header holds the MAC computed over
the exact raw bytes (here for an injective concrete MAC function); it
accepts the MAC over the re-serialisation instead.  The custom verifier
(`custom_handler.py` line 109) behaves the same way; both Slack verifiers
accept the MAC over the exact raw body for every MAC function. -/
theorem C1_mac_over_reserialized_body :
    pyJsonDumps (.dict [("events", .list [])]) = "\x7b\"events\": []\x7d"
    ∧ ("\x7b\"events\": []\x7d" : String) ≠ "\x7b\"events\":[]\x7d"
    ∧ line_verify_signature (fun k d => "MAC|" ++ k ++ "|" ++ d) (Option.some "k")
        (.dict [("events", .list [])])
        ⟨[("x-line-signature", "MAC|" ++ "k" ++ "|" ++ "\x7b\"events\":[]\x7d")],
         "\x7b\"events\":[]\x7d"⟩ = false
    ∧ line_verify_signature (fun k d => "MAC|" ++ k ++ "|" ++ d) (Option.some "k")
        (.dict [("events", .list [])])
        ⟨[("x-line-signature", "MAC|" ++ "k" ++ "|" ++ "\x7b\"events\": []\x7d")],
         "\x7b\"events\":[]\x7d"⟩ = true
    ∧ custom_verify_signature (fun k d => "MAC|" ++ k ++ "|" ++ d) (Option.some "k")
        (.dict [("events", .list [])])
        ⟨[("x-custom-signature", "MAC|" ++ "k" ++ "|" ++ "\x7b\"events\":[]\x7d")],
         "\x7b\"events\":[]\x7d"⟩ = false
    ∧ custom_verify_signature (fun k d => "MAC|" ++ k ++ "|" ++ d) (Option.some "k")
        (.dict [("events", .list [])])
        ⟨[("x-custom-signature", "MAC|" ++ "k" ++ "|" ++ "\x7b\"events\": []\x7d")],
         "\x7b\"events\":[]\x7d"⟩ = true
    ∧ (∀ macHex : String → String → String,
        slack_verify_signature macHex (Option.some "s") (.dict [("events", .list [])])
          ⟨[("x-slack-request-timestamp", "1"),
            ("x-slack-signature", "v0=" ++ macHex "s" ("v0:1:" ++ "\x7b\"events\":[]\x7d"))],
           "\x7b\"events\":[]\x7d"⟩ = true)
    ∧ (∀ macHex : String → String → String,
        verify_slack_signature macHex "s" "\x7b\"events\":[]\x7d" "1"
          ("v0=" ++ macHex "s" ("v0:1:" ++ "\x7b\"events\":[]\x7d")) = true) := by
  have hd : pyJsonDumps (.dict [("events", .list [])]) = "\x7b\"events\": []\x7d" := by
    decide
  refine ⟨hd, by decide, by decide, by decide, by decide, by decide, ?_, ?_⟩
  · intro macHex
    have hne : ("v0=" ++ macHex "s" "v0:1:\x7b\"events\":[]\x7d") ≠ "" := fun h =>
      List.cons_ne_nil _ _ (congrArg String.data h)
    simp [slack_verify_signature, headerGet, compareDigest, List.find?, hne]
  · intro macHex
    have hne : ("v0=" ++ macHex "s" "v0:1:\x7b\"events\":[]\x7d") ≠ "" := fun h =>
      List.cons_ne_nil _ _ (congrArg String.data h)
    simp [verify_slack_signature, compareDigest, hne]

/-- C5 (counterexample): two concrete refutations of the claim's universal
statement.  First, the cited module-level Slack verifier
(`webhook_handler._verify_slack_signature`) returns FALSE — not true — when
no secret is configured, even for a correctly signed request (its caller
bypasses it instead).  Second, the mobile-messaging (LINE) class verifier
with a configured secret REJECTS the request whose signature header is the
MAC correctly computed over the exact raw body (for an injective concrete
MAC function), because it recomputes the MAC over `json.dumps(body)`. -/
theorem C5_counterexample :
    verify_slack_signature (fun k d => k ++ "#" ++ d) "" "body" "1"
        ("v0=" ++ ((fun (k d : String) => k ++ "#" ++ d) "" "v0:1:body")) = false
    ∧ line_verify_signature (fun k d => k ++ "#" ++ d) (Option.some "k")
        (.dict [("events", .list [])])
        ⟨[("x-line-signature", "k#\x7b\"events\":[]\x7d")], "\x7b\"events\":[]\x7d"⟩ = false
    ∧ (fun (k d : String) => k ++ "#" ++ d) "k" "\x7b\"events\":[]\x7d" =
        "k#\x7b\"events\":[]\x7d" := by
  exact ⟨by decide, by decide, by decide⟩

/-- C5 (amended): all four class-based verifiers return true when no secret
is configured (`None` or empty), while the module-level Slack verifier
returns false in that case (its caller bypasses the call).  With a secret
configured, the workspace-chat verifiers accept exactly the `v0=`-prefixed
MAC over `"v0:" + timestamp + ":" + raw body` (with nonempty
timestamp/signature headers) and reject every request whose recomputed MAC
differs from the signature header — in particular any mutation of body or
headers that changes the MAC; the mobile-messaging and custom-UI verifiers
accept exactly the MAC over the re-serialised `json.dumps(body)`, not the
raw body. -/
theorem C5_verify_signature :
    (∀ macHex macB64 body ev,
      slack_verify_signature macHex Option.none body ev = true
      ∧ slack_verify_signature macHex (Option.some "") body ev = true
      ∧ line_verify_signature macB64 Option.none body ev = true
      ∧ line_verify_signature macB64 (Option.some "") body ev = true
      ∧ custom_verify_signature macHex Option.none body ev = true
      ∧ custom_verify_signature macHex (Option.some "") body ev = true
      ∧ teams_verify_signature Option.none body ev = true
      ∧ teams_verify_signature (Option.some "") body ev = true)
    ∧ (∀ macHex body ts sig, verify_slack_signature macHex "" body ts sig = false)
    ∧ (∀ macHex s body ev, s ≠ "" →
        headerGet ev "x-slack-request-timestamp" ≠ "" →
        headerGet ev "x-slack-signature" =
          "v0=" ++ macHex s
            ("v0:" ++ headerGet ev "x-slack-request-timestamp" ++ ":" ++ ev.body) →
        slack_verify_signature macHex (Option.some s) body ev = true)
    ∧ (∀ macHex s body ev, s ≠ "" →
        headerGet ev "x-slack-signature" ≠
          "v0=" ++ macHex s
            ("v0:" ++ headerGet ev "x-slack-request-timestamp" ++ ":" ++ ev.body) →
        slack_verify_signature macHex (Option.some s) body ev = false)
    ∧ (∀ macHex s raw ts sig, s ≠ "" → ts ≠ "" → sig ≠ "" →
        (verify_slack_signature macHex s raw ts sig = true ↔
          sig = "v0=" ++ macHex s ("v0:" ++ ts ++ ":" ++ raw)))
    ∧ (∀ macB64 s body ev, s ≠ "" →
        (line_verify_signature macB64 (Option.some s) body ev = true ↔
          (headerGet ev "x-line-signature" ≠ ""
            ∧ headerGet ev "x-line-signature" = macB64 s (pyJsonDumps body))))
    ∧ (∀ macHex s body ev, s ≠ "" →
        (custom_verify_signature macHex (Option.some s) body ev = true ↔
          (headerGet ev "x-custom-signature" ≠ ""
            ∧ headerGet ev "x-custom-signature" = macHex s (pyJsonDumps body)))) := by
  refine ⟨?_, ?_, ?_, ?_, ?_, ?_, ?_⟩
  · intro macHex macB64 body ev
    exact ⟨rfl, rfl, rfl, rfl, rfl, rfl, rfl, rfl⟩
  · intro macHex body ts sig
    simp [verify_slack_signature]
  · intro macHex s body ev hs hts hsig
    have hne2 : ("v0=" ++ macHex s
        ("v0:" ++ headerGet ev "x-slack-request-timestamp" ++ ":" ++ ev.body)) ≠ "" :=
      fun h => List.cons_ne_nil _ _ (congrArg String.data h)
    have hne : headerGet ev "x-slack-signature" ≠ "" := by
      rw [hsig]; exact hne2
    simp [slack_verify_signature, compareDigest, hs, hts, hne, hsig, hne2]
  · intro macHex s body ev hs hsig
    by_cases hts : headerGet ev "x-slack-request-timestamp" = ""
    · simp [slack_verify_signature, hs, hts]
    · by_cases hne : headerGet ev "x-slack-signature" = ""
      · simp [slack_verify_signature, hs, hts, hne]
      · simp [slack_verify_signature, compareDigest, hs, hts, hne]
        intro h
        exact absurd h.symm hsig
  · intro macHex s raw ts sig hs hts hsig
    simp [verify_slack_signature, compareDigest, hs, hts, hsig]
    constructor
    · intro h
      exact h.symm
    · intro h
      exact h.symm
  · intro macB64 s body ev hs
    by_cases hne : headerGet ev "x-line-signature" = ""
    · simp [line_verify_signature, hs, hne]
    · simp [line_verify_signature, compareDigest, hs, hne]
      constructor
      · intro h
        exact h.symm
      · intro h
        exact h.symm
  · intro macHex s body ev hs
    by_cases hne : headerGet ev "x-custom-signature" = ""
    · simp [custom_verify_signature, hs, hne]
    · simp [custom_verify_signature, compareDigest, hs, hne]
      constructor
      · intro h
        exact h.symm
      · intro h
        exact h.symm

/-- C5 (witness): the slack-accept conjunct and the line-accept direction
applied to concretely signed requests. -/
theorem C5_witness :
    ("sec" : String) ≠ ""
    ∧ headerGet ⟨[("x-slack-request-timestamp", "1"),
        ("x-slack-signature", "v0=sec#v0:1:RAW")], "RAW"⟩ "x-slack-request-timestamp" ≠ ""
    ∧ headerGet ⟨[("x-slack-request-timestamp", "1"),
        ("x-slack-signature", "v0=sec#v0:1:RAW")], "RAW"⟩ "x-slack-signature" =
      "v0=" ++ (fun (k d : String) => k ++ "#" ++ d) "sec"
        ("v0:" ++ headerGet ⟨[("x-slack-request-timestamp", "1"),
          ("x-slack-signature", "v0=sec#v0:1:RAW")], "RAW"⟩ "x-slack-request-timestamp"
          ++ ":" ++ "RAW")
    ∧ slack_verify_signature (fun k d => k ++ "#" ++ d) (Option.some "sec")
        (.dict []) ⟨[("x-slack-request-timestamp", "1"),
          ("x-slack-signature", "v0=sec#v0:1:RAW")], "RAW"⟩ = true
    ∧ line_verify_signature (fun k d => k ++ "#" ++ d) (Option.some "sec")
        (.dict [("events", .list [])])
        ⟨[("x-line-signature", "sec#\x7b\"events\": []\x7d")], "ignored-raw"⟩ = true :=
  ⟨by decide, by decide, by decide,
   C5_verify_signature.2.2.1 (fun k d => k ++ "#" ++ d) "sec" (.dict [])
     ⟨[("x-slack-request-timestamp", "1"),
       ("x-slack-signature", "v0=sec#v0:1:RAW")], "RAW"⟩
     (by decide) (by decide) (by decide),
   (C5_verify_signature.2.2.2.2.2.1 (fun k d => k ++ "#" ++ d) "sec"
       (.dict [("events", .list [])])
       ⟨[("x-line-signature", "sec#\x7b\"events\": []\x7d")], "ignored-raw"⟩
       (by decide)).mpr ⟨by decide, by decide⟩⟩

/-- C10 (confirmed): under the DynamoDB key invariant that the room's
timestamps are pairwise distinct (`(PK, SK)` is the table's primary key),
`get_recent_messages` returns `min limit |room|` items — in particular at
most `limit` — sorted in ascending timestamp order, all of them stored rows
of the queried room, and they are exactly the rows with the greatest
timestamps: every stored row of the room left out of the result has a
strictly smaller timestamp than every returned row.  (The Python default
for `limit` is `GET_RECENT_DEFAULT_LIMIT = 6`.) -/
theorem C10_get_recent_messages (store : List StoredItem) (pk : String) (limit : Nat)
    (hkeys : (store.filter (fun it => it.PK == pk)).Pairwise (fun a b => a.SK ≠ b.SK)) :
    (get_recent_messages store pk limit).length =
      min limit (store.filter (fun it => it.PK == pk)).length
    ∧ (get_recent_messages store pk limit).Pairwise (fun a b => a.SK ≤ b.SK)
    ∧ (∀ x ∈ get_recent_messages store pk limit,
        x ∈ store.filter (fun it => it.PK == pk))
    ∧ (∀ x ∈ get_recent_messages store pk limit,
        ∀ y ∈ store.filter (fun it => it.PK == pk),
          y ∉ get_recent_messages store pk limit → y.SK < x.SK) := by
  set room := store.filter (fun it => it.PK == pk) with hroom
  set desc := List.insertionSort skDescLe room with hdesc
  set window := desc.take limit with hwindow
  have hresult : get_recent_messages store pk limit = List.insertionSort skAscLe window := by
    simp [get_recent_messages, dynamoQueryDesc, hdesc, hwindow, hroom]
  set result := List.insertionSort skAscLe window with hres
  rw [hresult]
  have hpd : desc.Perm room := List.perm_insertionSort skDescLe room
  have hsd : desc.Pairwise skDescLe := List.sorted_insertionSort skDescLe room
  have hpr : result.Perm window := List.perm_insertionSort skAscLe window
  have hsr : result.Pairwise skAscLe := List.sorted_insertionSort skAscLe window
  have hsplit : desc = window ++ desc.drop limit := (List.take_append_drop limit desc).symm
  have hcross : ∀ a ∈ window, ∀ b ∈ desc.drop limit, b.SK ≤ a.SK := by
    have h := hsd
    rw [hsplit] at h
    exact fun a ha b hb => (List.pairwise_append.mp h).2.2 a ha b hb
  have hne_desc : desc.Pairwise (fun a b => a.SK ≠ b.SK) :=
    (hpd.pairwise_iff (fun h => h.symm)).mpr hkeys
  have hne_cross : ∀ a ∈ window, ∀ b ∈ desc.drop limit, a.SK ≠ b.SK := by
    have h := hne_desc
    rw [hsplit] at h
    exact fun a ha b hb => (List.pairwise_append.mp h).2.2 a ha b hb
  refine ⟨?_, hsr, ?_, ?_⟩
  · rw [hpr.length_eq, hwindow, List.length_take, hpd.length_eq]
  · intro x hx
    have hxw : x ∈ window := hpr.mem_iff.mp hx
    have hxd : x ∈ desc := (List.take_sublist limit desc).subset hxw
    exact hpd.mem_iff.mp hxd
  · intro x hx y hy hynot
    have hxw : x ∈ window := hpr.mem_iff.mp hx
    have hyd : y ∈ desc := hpd.mem_iff.mpr hy
    have hyd2 : y ∈ window ++ desc.drop limit := by rw [← hsplit]; exact hyd
    rcases List.mem_append.mp hyd2 with hyw | hydrop
    · exact absurd (hpr.mem_iff.mpr hyw) hynot
    · exact lt_of_le_of_ne (hcross x hxw y hydrop) (fun h => hne_cross x hxw y hydrop h.symm)

/-- C10 (witness): the theorem applied to a concrete four-row table with a
window of two. -/
theorem C10_witness :
    (exampleStore.filter (fun it => it.PK == "custom:r1")).Pairwise
        (fun a b => a.SK ≠ b.SK)
    ∧ ((get_recent_messages exampleStore "custom:r1" 2).length =
        min 2 (exampleStore.filter (fun it => it.PK == "custom:r1")).length
      ∧ (get_recent_messages exampleStore "custom:r1" 2).Pairwise
          (fun a b => a.SK ≤ b.SK)
      ∧ (∀ x ∈ get_recent_messages exampleStore "custom:r1" 2,
          x ∈ exampleStore.filter (fun it => it.PK == "custom:r1"))
      ∧ (∀ x ∈ get_recent_messages exampleStore "custom:r1" 2,
          ∀ y ∈ exampleStore.filter (fun it => it.PK == "custom:r1"),
            y ∉ get_recent_messages exampleStore "custom:r1" 2 → y.SK < x.SK)) :=
  ⟨by decide, C10_get_recent_messages exampleStore "custom:r1" 2 (by decide)⟩
